import Mathlib

/-!
Verification of the 3D room-planner scene model (`src/models/*.py`,
`src/rendering/renderer.py`) against its natural-language specification.

Embedding conventions:
* Python floats are modelled as exact rationals (`ℚ`); every arithmetic
  operation used by the code (`+`, `-`, `*`, `/`, `max`, `min`, `%` with a
  positive divisor) is exact on the inputs the claims quantify over.
* `numpy` 3-vectors are modelled by the `Vec3` structure (`.tolist()` /
  `np.array` round trips are the identity on 3-vectors).
* Python object attributes become structure fields; the `@property`
  getters with fallback logic become explicit `get_*` functions.
* Serialized dictionaries (`to_dict` output) become typed record
  structures holding exactly the keys the code writes; conditionally
  written keys (`texture`, bay-window `angle`) become `Option` fields
  where `none` means the key is absent.
* Fallible code paths are modelled with `Option`: `none` models an
  uncaught Python exception.
-/

structure Vec3 where
  x : ℚ
  y : ℚ
  z : ℚ
deriving DecidableEq, Repr

def Vec3.zero : Vec3 := ⟨0, 0, 0⟩

/-- RGB(A) colors are Python lists of floats; a color attribute may also
hold a raw hex string in some code paths, but every attribute relevant to
the claims holds a list, modelled as `List ℚ`. -/
abbrev RGB := List ℚ

/-- Fields shared by every scene object (`BaseObject.__init__`):
`_id`, `_name`, `_position`, `_rotation`, `_scale`, `_visible`,
`_selectable`, `_is_selected`.  The runtime-only `_mesh`/`_material`
slots (always `None` in the model layer) are omitted. -/
structure BaseFields where
  id : String
  name : String
  position : Vec3
  rotation : Vec3
  scale : Vec3
  visible : Bool
  selectable : Bool
  is_selected : Bool
deriving DecidableEq, Repr

/-- `BaseObject.__init__(object_id, name, position, rotation)`:
missing position/rotation default to the origin, scale defaults to
`[1,1,1]`, `visible`/`selectable` default to true, `is_selected` to
false. -/
def BaseFields.make (object_id name : String) (position rotation : Option Vec3) : BaseFields :=
  { id := object_id
    name := name
    position := position.getD Vec3.zero
    rotation := rotation.getD Vec3.zero
    scale := ⟨1, 1, 1⟩
    visible := true
    selectable := true
    is_selected := false }

/-- `Room` (`room.py`): stored attributes.  The four per-wall exterior
overrides and four per-wall interior overrides are `Option RGB`
(`None` = fall back to the shared default at read time). -/
structure Room where
  base : BaseFields
  room_type : String
  width : ℚ
  length : ℚ
  height : ℚ
  wall_color : RGB
  north_wall_color : Option RGB
  south_wall_color : Option RGB
  east_wall_color : Option RGB
  west_wall_color : Option RGB
  floor_color : RGB
  ceiling_color : RGB
  interior_wall_color : RGB
  interior_north_wall_color : Option RGB
  interior_south_wall_color : Option RGB
  interior_east_wall_color : Option RGB
  interior_west_wall_color : Option RGB
  interior_floor_color : RGB
  interior_ceiling_color : RGB
  floor_texture : Option String
  wall_texture : Option String
  ceiling_texture : Option String
  wall_opacity : ℚ
  floor_opacity : ℚ
  ceiling_opacity : ℚ
deriving DecidableEq, Repr

/-- `Room.__init__`: dimensions are clamped to at least `1.0`; colors and
opacities take the documented defaults. -/
def Room.make (room_id name room_type : String) (width length height : ℚ)
    (position rotation : Option Vec3) : Room :=
  { base := BaseFields.make room_id name position rotation
    room_type := room_type
    width := max 1 width
    length := max 1 length
    height := max 1 height
    wall_color := [0.8, 0.8, 0.8]
    north_wall_color := none
    south_wall_color := none
    east_wall_color := none
    west_wall_color := none
    floor_color := [0.8, 0.8, 0.8]
    ceiling_color := [0.8, 0.8, 0.8]
    interior_wall_color := [0.85, 0.85, 0.82]
    interior_north_wall_color := none
    interior_south_wall_color := none
    interior_east_wall_color := none
    interior_west_wall_color := none
    interior_floor_color := [0.82, 0.8, 0.75]
    interior_ceiling_color := [0.9, 0.9, 0.9]
    floor_texture := none
    wall_texture := none
    ceiling_texture := none
    wall_opacity := 1
    floor_opacity := 1
    ceiling_opacity := 1 }

/-- Property getter `Room.north_wall_color`: the override if set, else the
shared `_wall_color` default. -/
def Room.get_north_wall_color (r : Room) : RGB := r.north_wall_color.getD r.wall_color

/-- Property getter `Room.south_wall_color`. -/
def Room.get_south_wall_color (r : Room) : RGB := r.south_wall_color.getD r.wall_color

/-- Property getter `Room.east_wall_color`. -/
def Room.get_east_wall_color (r : Room) : RGB := r.east_wall_color.getD r.wall_color

/-- Property getter `Room.west_wall_color`. -/
def Room.get_west_wall_color (r : Room) : RGB := r.west_wall_color.getD r.wall_color

/-- `Door` (`door.py`): stored attributes. -/
structure Door where
  base : BaseFields
  door_type : String
  width : ℚ
  height : ℚ
  thickness : ℚ
  color : RGB
  texture : Option String
  open_angle : ℚ
  is_open : Bool
deriving DecidableEq, Repr

/-- `Door.__init__`: width clamped to `≥ 0.6`, height to `≥ 1.8`,
thickness `0.05`, wood-brown default color, closed. -/
def Door.make (door_id name door_type : String) (width height : ℚ)
    (position rotation : Option Vec3) : Door :=
  { base := BaseFields.make door_id name position rotation
    door_type := door_type
    width := max 0.6 width
    height := max 1.8 height
    thickness := 0.05
    color := [0.6, 0.4, 0.2]
    texture := none
    open_angle := 0
    is_open := false }

/-- `Window` (`window.py`): stored attributes.  Note the constructor
assigns `_window_type` directly (not through the property setter), so
`segments` stays `1` regardless of the type, and `_angle` stays `0`. -/
structure Window where
  base : BaseFields
  window_type : String
  width : ℚ
  height : ℚ
  thickness : ℚ
  frame_color : RGB
  glass_color : RGB
  glass_transparency : ℚ
  texture : Option String
  open_percentage : ℚ
  is_open : Bool
  angle : ℚ
  segments : ℤ
deriving DecidableEq, Repr

/-- `Window.__init__`: width/height clamped to `≥ 0.5`, thickness `0.1`,
one segment, angle `0`. -/
def Window.make (window_id name window_type : String) (width height : ℚ)
    (position rotation : Option Vec3) : Window :=
  { base := BaseFields.make window_id name position rotation
    window_type := window_type
    width := max 0.5 width
    height := max 0.5 height
    thickness := 0.1
    frame_color := [0.95, 0.95, 0.95]
    glass_color := [0.95, 0.97, 0.99, 0.4]
    glass_transparency := 0.6
    texture := none
    open_percentage := 0
    is_open := false
    angle := 0
    segments := 1 }

/-- Property setter `Window.segments`: bay windows get `max 3 segments`,
double windows get `2`, everything else `1`. -/
def Window.set_segments (w : Window) (segments : ℤ) : Window :=
  if w.window_type = "Bay Window" then { w with segments := max 3 segments }
  else if w.window_type = "Double Window" then { w with segments := 2 }
  else { w with segments := 1 }

/-- Property setter `Window.angle`: only bay windows accept it, clamped to
`[90, 180]`. -/
def Window.set_angle (w : Window) (angle : ℚ) : Window :=
  if w.window_type = "Bay Window" then { w with angle := max 90 (min 180 angle) }
  else w

/-- One adjustable furniture part: the `{min, max, current}` record. -/
structure AdjPart where
  lo : ℚ
  hi : ℚ
  cur : ℚ
deriving DecidableEq, Repr

/-- `Furniture` (`furniture.py`): stored attributes. -/
structure Furniture where
  base : BaseFields
  furniture_type : String
  category : String
  width : ℚ
  depth : ℚ
  height : ℚ
  color : RGB
  texture : Option String
  material_type : String
  adjustable_parts : List (String × AdjPart)
deriving DecidableEq, Repr

/-- `Furniture._set_default_color` merged with the `[0.8,0.8,0.8]`
initial value: the category-derived default color. -/
def categoryDefaultColor (category : String) : RGB :=
  if category = "Chairs" then [0.3, 0.3, 0.35]
  else if category = "Tables" then [0.6, 0.4, 0.2]
  else if category = "Sofas" then [0.2, 0.2, 0.6]
  else if category = "Beds" then [0.9, 0.9, 0.9]
  else [0.8, 0.8, 0.8]

/-- `Furniture.__init__`: dimensions clamped to `≥ 0.1`, color derived
from the category, wood material, no adjustable parts. -/
def Furniture.make (furniture_id name furniture_type category : String)
    (width depth height : ℚ) (position rotation : Option Vec3) : Furniture :=
  { base := BaseFields.make furniture_id name position rotation
    furniture_type := furniture_type
    category := category
    width := max 0.1 width
    depth := max 0.1 depth
    height := max 0.1 height
    color := categoryDefaultColor category
    texture := none
    material_type := "wood"
    adjustable_parts := [] }

/-- Property setter `Furniture.material_type`: invalid materials fall
back to `"wood"`. -/
def validMaterial (m : String) : Bool :=
  m = "wood" || m = "metal" || m = "fabric" || m = "leather" || m = "glass" || m = "plastic"

/-- A scene entity: the closed variant over the four concrete classes. -/
inductive Entity where
  | room (r : Room)
  | door (d : Door)
  | window (w : Window)
  | furn (f : Furniture)
deriving DecidableEq, Repr

def Entity.isRoom : Entity → Bool
  | .room _ => true
  | _ => false

def Entity.baseOf : Entity → BaseFields
  | .room r => r.base
  | .door d => d.base
  | .window w => w.base
  | .furn f => f.base

def Entity.idOf (e : Entity) : String := e.baseOf.id

def Entity.nameOf (e : Entity) : String := e.baseOf.name

def Entity.positionOf (e : Entity) : Vec3 := e.baseOf.position

def Entity.rotationOf (e : Entity) : Vec3 := e.baseOf.rotation

def Entity.mapBase (g : BaseFields → BaseFields) : Entity → Entity
  | .room r => .room { r with base := g r.base }
  | .door d => .door { d with base := g d.base }
  | .window w => .window { w with base := g w.base }
  | .furn f => .furn { f with base := g f.base }

/-- In-place assignment `obj._id = object_id` performed by `add_object`. -/
def Entity.setId (e : Entity) (i : String) : Entity := e.mapBase (fun b => { b with id := i })

def Entity.setPosition (e : Entity) (p : Vec3) : Entity := e.mapBase (fun b => { b with position := p })

def Entity.setRotation (e : Entity) (r : Vec3) : Entity := e.mapBase (fun b => { b with rotation := r })

def Entity.setSelectedFlag (e : Entity) (v : Bool) : Entity :=
  e.mapBase (fun b => { b with is_selected := v })

/-! ## Serialization records (`to_dict` / `from_dict`) -/

/-- Keys that `Door.to_dict`/`Window.to_dict`/`Furniture.to_dict` write
only when the texture is truthy: `none` models an absent key. -/
def textureOut : Option String → Option String
  | some s => if s = "" then none else some s
  | none => none

/-- The `BaseObject.to_dict` keys. -/
structure BaseRecord where
  id : String
  name : String
  position : Vec3
  rotation : Vec3
  scale : Vec3
  visible : Bool
  selectable : Bool
  is_selected : Bool
deriving DecidableEq, Repr

def BaseFields.to_dict (b : BaseFields) : BaseRecord :=
  { id := b.id, name := b.name, position := b.position, rotation := b.rotation
    scale := b.scale, visible := b.visible, selectable := b.selectable
    is_selected := b.is_selected }

/-- `Room.to_dict` output (the `"type": "Room"` discriminant is carried by
the `ObjectRecord` constructor).  The per-wall override keys are always
present, with a `None` value when unset. -/
structure RoomRecord where
  base : BaseRecord
  room_type : String
  width : ℚ
  length : ℚ
  height : ℚ
  wall_color : RGB
  north_wall_color : Option RGB
  south_wall_color : Option RGB
  east_wall_color : Option RGB
  west_wall_color : Option RGB
  floor_color : RGB
  ceiling_color : RGB
  interior_wall_color : RGB
  interior_north_wall_color : Option RGB
  interior_south_wall_color : Option RGB
  interior_east_wall_color : Option RGB
  interior_west_wall_color : Option RGB
  interior_floor_color : RGB
  interior_ceiling_color : RGB
  wall_texture : Option String
  floor_texture : Option String
  ceiling_texture : Option String
  wall_opacity : ℚ
  floor_opacity : ℚ
  ceiling_opacity : ℚ
deriving DecidableEq, Repr

def Room.to_dict (r : Room) : RoomRecord :=
  { base := r.base.to_dict
    room_type := r.room_type, width := r.width, length := r.length, height := r.height
    wall_color := r.wall_color
    north_wall_color := r.north_wall_color, south_wall_color := r.south_wall_color
    east_wall_color := r.east_wall_color, west_wall_color := r.west_wall_color
    floor_color := r.floor_color, ceiling_color := r.ceiling_color
    interior_wall_color := r.interior_wall_color
    interior_north_wall_color := r.interior_north_wall_color
    interior_south_wall_color := r.interior_south_wall_color
    interior_east_wall_color := r.interior_east_wall_color
    interior_west_wall_color := r.interior_west_wall_color
    interior_floor_color := r.interior_floor_color
    interior_ceiling_color := r.interior_ceiling_color
    wall_texture := r.wall_texture, floor_texture := r.floor_texture
    ceiling_texture := r.ceiling_texture
    wall_opacity := r.wall_opacity, floor_opacity := r.floor_opacity
    ceiling_opacity := r.ceiling_opacity }

/-- `Room.from_dict`: constructor call (clamping dimensions) followed by
direct assignment of every appearance field.  Note it does NOT restore
`scale`, `visible`, `selectable` or `is_selected`. -/
def Room.from_dict (rec : RoomRecord) : Room :=
  let r := Room.make rec.base.id rec.base.name rec.room_type rec.width rec.length rec.height
    (some rec.base.position) (some rec.base.rotation)
  { r with
    wall_color := rec.wall_color
    north_wall_color := rec.north_wall_color, south_wall_color := rec.south_wall_color
    east_wall_color := rec.east_wall_color, west_wall_color := rec.west_wall_color
    floor_color := rec.floor_color, ceiling_color := rec.ceiling_color
    interior_wall_color := rec.interior_wall_color
    interior_north_wall_color := rec.interior_north_wall_color
    interior_south_wall_color := rec.interior_south_wall_color
    interior_east_wall_color := rec.interior_east_wall_color
    interior_west_wall_color := rec.interior_west_wall_color
    interior_floor_color := rec.interior_floor_color
    interior_ceiling_color := rec.interior_ceiling_color
    wall_texture := rec.wall_texture, floor_texture := rec.floor_texture
    ceiling_texture := rec.ceiling_texture
    wall_opacity := rec.wall_opacity, floor_opacity := rec.floor_opacity
    ceiling_opacity := rec.ceiling_opacity }

/-- `Door.to_dict` output. -/
structure DoorRecord where
  base : BaseRecord
  door_type : String
  width : ℚ
  height : ℚ
  thickness : ℚ
  color : RGB
  open_angle : ℚ
  is_open : Bool
  texture : Option String
deriving DecidableEq, Repr

def Door.to_dict (d : Door) : DoorRecord :=
  { base := d.base.to_dict
    door_type := d.door_type, width := d.width, height := d.height
    thickness := d.thickness, color := d.color
    open_angle := d.open_angle, is_open := d.is_open
    texture := textureOut d.texture }

/-- Property setter `Door.open_angle`: clamps to `[0, 90]` and recomputes
`is_open`. -/
def Door.set_open_angle (d : Door) (a : ℚ) : Door :=
  let a := max 0 (min 90 a)
  { d with open_angle := a, is_open := decide (0 < a) }

/-- `Door.from_dict`: constructor (clamping width/height), then setters
for thickness / color / texture / open_angle / scale / visible /
selectable.  `is_selected` is NOT restored. -/
def Door.from_dict (rec : DoorRecord) : Door :=
  let d := Door.make rec.base.id rec.base.name rec.door_type rec.width rec.height
    (some rec.base.position) (some rec.base.rotation)
  let d := { d with thickness := max 0.01 rec.thickness, color := rec.color }
  let d := match rec.texture with
    | some t => { d with texture := some t }
    | none => d
  let d := d.set_open_angle rec.open_angle
  let b := { d.base with
    scale := rec.base.scale
    visible := rec.base.visible
    selectable := rec.base.selectable }
  { d with base := b }

/-- `Window.to_dict` output; `angle` is written only for bay windows. -/
structure WindowRecord where
  base : BaseRecord
  window_type : String
  width : ℚ
  height : ℚ
  thickness : ℚ
  frame_color : RGB
  glass_color : RGB
  glass_transparency : ℚ
  open_percentage : ℚ
  is_open : Bool
  segments : ℤ
  angle : Option ℚ
  texture : Option String
deriving DecidableEq, Repr

def Window.to_dict (w : Window) : WindowRecord :=
  { base := w.base.to_dict
    window_type := w.window_type, width := w.width, height := w.height
    thickness := w.thickness, frame_color := w.frame_color, glass_color := w.glass_color
    glass_transparency := w.glass_transparency
    open_percentage := w.open_percentage, is_open := w.is_open
    segments := w.segments
    angle := if w.window_type = "Bay Window" then some w.angle else none
    texture := textureOut w.texture }

/-- Property setter `Window.open_percentage`: clamps to `[0, 100]` and
recomputes `is_open`. -/
def Window.set_open_percentage (w : Window) (p : ℚ) : Window :=
  let p := max 0 (min 100 p)
  { w with open_percentage := p, is_open := decide (0 < p) }

/-- `Window.from_dict`: constructor then setters in source order; note
`segments` and `angle` go through their (type-dependent) property
setters, and `is_selected` is NOT restored. -/
def Window.from_dict (rec : WindowRecord) : Window :=
  let w := Window.make rec.base.id rec.base.name rec.window_type rec.width rec.height
    (some rec.base.position) (some rec.base.rotation)
  let w := { w with thickness := max 0.05 rec.thickness,
                     frame_color := rec.frame_color, glass_color := rec.glass_color,
                     glass_transparency := max 0 (min 1 rec.glass_transparency) }
  let w := match rec.texture with
    | some t => { w with texture := some t }
    | none => w
  let w := w.set_open_percentage rec.open_percentage
  let w := w.set_segments rec.segments
  let w := match rec.angle with
    | some a => if w.window_type = "Bay Window" then w.set_angle a else w
    | none => w
  let b := { w.base with
    scale := rec.base.scale
    visible := rec.base.visible
    selectable := rec.base.selectable }
  { w with base := b }

/-- `Furniture.to_dict` output. -/
structure FurnRecord where
  base : BaseRecord
  furniture_type : String
  category : String
  width : ℚ
  depth : ℚ
  height : ℚ
  color : RGB
  material_type : String
  adjustable_parts : List (String × AdjPart)
  texture : Option String
deriving DecidableEq, Repr

def Furniture.to_dict (f : Furniture) : FurnRecord :=
  { base := f.base.to_dict
    furniture_type := f.furniture_type, category := f.category
    width := f.width, depth := f.depth, height := f.height
    color := f.color, material_type := f.material_type
    adjustable_parts := f.adjustable_parts
    texture := textureOut f.texture }

/-- `Furniture.from_dict`: constructor, then color / texture / material
setters, re-adding adjustable parts in order, then base setters.
`is_selected` is NOT restored. -/
def Furniture.from_dict (rec : FurnRecord) : Furniture :=
  let f := Furniture.make rec.base.id rec.base.name rec.furniture_type rec.category
    rec.width rec.depth rec.height (some rec.base.position) (some rec.base.rotation)
  let f := { f with color := rec.color }
  let f := match rec.texture with
    | some t => { f with texture := some t }
    | none => f
  let f := { f with material_type := if validMaterial rec.material_type then rec.material_type else "wood" }
  let f := { f with adjustable_parts := rec.adjustable_parts }
  let b := { f.base with
    scale := rec.base.scale
    visible := rec.base.visible
    selectable := rec.base.selectable }
  { f with base := b }

/-- A serialized entity record with its `"type"` discriminant. -/
inductive ObjectRecord where
  | room (r : RoomRecord)
  | door (d : DoorRecord)
  | window (w : WindowRecord)
  | furn (f : FurnRecord)
deriving DecidableEq, Repr

def ObjectRecord.isRoomRec : ObjectRecord → Bool
  | .room _ => true
  | _ => false

def Entity.to_dict : Entity → ObjectRecord
  | .room r => .room r.to_dict
  | .door d => .door d.to_dict
  | .window w => .window w.to_dict
  | .furn f => .furn f.to_dict

/-! ## Hex → RGB conversion (`SceneManager._hex_to_rgb`) -/

/-- ASCII whitespace stripped by Python `int(str, 16)` (space, tab, LF,
CR, VT, FF, written as ASCII codes). -/
def isPyWs (c : Char) : Bool :=
  c.toNat = 32 || c.toNat = 9 || c.toNat = 10 || c.toNat = 13 || c.toNat = 11 || c.toNat = 12

/-- Hex digit value, accepting both cases (as Python `int(·, 16)` does):
`0`–`9` are codes 48–57, `a`–`f` are 97–102, `A`–`F` are 65–70. -/
def hexVal (c : Char) : Option Nat :=
  if 48 ≤ c.toNat ∧ c.toNat ≤ 57 then some (c.toNat - 48)
  else if 97 ≤ c.toNat ∧ c.toNat ≤ 102 then some (c.toNat - 87)
  else if 65 ≤ c.toNat ∧ c.toNat ≤ 70 then some (c.toNat - 55)
  else none

/-- Digit run of a base-16 int literal after the first digit: single
underscores (code 95) are allowed between digits. -/
def hexDigitsRest (acc : Nat) : List Char → Option Nat
  | [] => some acc
  | c :: cs =>
    if c.toNat = 95 then
      match cs with
      | c2 :: cs2 =>
        match hexVal c2 with
        | some v => hexDigitsRest (16 * acc + v) cs2
        | none => none
      | [] => none
    else
      match hexVal c with
      | some v => hexDigitsRest (16 * acc + v) cs
      | none => none

/-- Digit run of a base-16 int literal: nonempty, starting with a digit. -/
def hexDigitsParse : List Char → Option Nat
  | c :: cs => (hexVal c).bind (fun v => hexDigitsRest v cs)
  | [] => none

/-- After an explicit `0x`/`0X` prefix one leading underscore is allowed. -/
def hexAfterPrefix : List Char → Option Nat
  | c :: cs => if c.toNat = 95 then hexDigitsParse cs else hexDigitsParse (c :: cs)
  | [] => none

/-- Optional sign: `+` is code 43, `-` is code 45. -/
def pySign : List Char → ℤ × List Char
  | c :: rest =>
    if c.toNat = 43 then (1, rest)
    else if c.toNat = 45 then (-1, rest)
    else (1, c :: rest)
  | [] => (1, [])

/-- Digit part with the optional `0x`/`0X` prefix (`0` is code 48, `x`
is 120, `X` is 88). -/
def pyHexCore : List Char → Option Nat
  | c0 :: c1 :: rest =>
    if c0.toNat = 48 ∧ (c1.toNat = 120 ∨ c1.toNat = 88) then hexAfterPrefix rest
    else hexDigitsParse (c0 :: c1 :: rest)
  | cs => hexDigitsParse cs

/-- Python `int(s, 16)`: optional surrounding ASCII whitespace, optional
sign, optional `0x`/`0X` prefix, then underscore-separated hex digits.
`none` models the `ValueError` raised on anything else. -/
def pyIntHex (s : String) : Option ℤ :=
  let cs := s.data.dropWhile isPyWs
  let cs := (cs.reverse.dropWhile isPyWs).reverse
  let sr := pySign cs
  (pyHexCore sr.2).map (fun n => sr.1 * (n : ℤ))

/-- The dynamically-typed argument of `_hex_to_rgb`: a list/tuple or a
string. -/
inductive PyColor where
  | rgb (l : List ℚ)
  | str (s : String)
deriving DecidableEq, Repr

/-- `"#FF0000".lstrip('#')`: drops every leading `#`. -/
def lstripHash (s : String) : String := ⟨s.data.dropWhile (· = '#')⟩

/-- `SceneManager._hex_to_rgb`.  A list or tuple of length ≥ 3 passes
through unchanged; a string is `#`-stripped, then a 6-character string is
split into three 2-character `int(·, 16)` groups and a 3-character string
into three doubled-digit groups (each divided by 255.0); any parse
failure, or any other length, yields white `[1,1,1]`.  For a list shorter
than 3 the code calls `.lstrip` on a list and raises `AttributeError`,
modelled by `none`. -/
def hex_to_rgb : PyColor → Option (List ℚ)
  | .rgb l => if 3 ≤ l.length then some l else none
  | .str s =>
    match (lstripHash s).data with
    | [c1, c2, c3, c4, c5, c6] =>
      match pyIntHex ⟨[c1, c2]⟩, pyIntHex ⟨[c3, c4]⟩, pyIntHex ⟨[c5, c6]⟩ with
      | some r, some g, some b => some [(r : ℚ) / 255, (g : ℚ) / 255, (b : ℚ) / 255]
      | _, _, _ => some [1, 1, 1]
    | [c1, c2, c3] =>
      match pyIntHex ⟨[c1, c1]⟩, pyIntHex ⟨[c2, c2]⟩, pyIntHex ⟨[c3, c3]⟩ with
      | some r, some g, some b => some [(r : ℚ) / 255, (g : ℚ) / 255, (b : ℚ) / 255]
      | _, _, _ => some [1, 1, 1]
    | _ => some [1, 1, 1]

/-- `_hex_to_rgb` applied to a string never raises, so this total wrapper
is exact on string inputs. -/
def hex_to_rgb_str (s : String) : List ℚ := (hex_to_rgb (.str s)).getD [1, 1, 1]

/-! ## Renderer mesh-cache keys (`renderer.py`)

The f-string keys `f"door_{type}_{w}_{h}_{th}"` and
`f"window_{type}_{w}_{h}"` are modelled as tuples of the interpolated
values: Python's `str` is injective on distinct floats and the `_`
separator keeps the fields apart, so two keys are equal exactly when the
interpolated tuples are equal. -/

/-- Door mesh-cache key (`render_object`, renderer.py line 327): includes
the thickness. -/
def doorMeshKey (d : Door) : String × String × ℚ × ℚ × ℚ :=
  ("door", d.door_type, d.width, d.height, d.thickness)

/-- Window mesh-cache key (`render_transparent_object`, renderer.py line
409): only type, width and height — thickness and segments are passed to
`create_window_mesh` but are NOT part of the key. -/
def windowMeshKey (w : Window) : String × String × ℚ × ℚ :=
  ("window", w.window_type, w.width, w.height)

/-- Furniture mesh-cache key (`render_object`, renderer.py line 335). -/
def furnitureMeshKey (f : Furniture) : String × String × ℚ × ℚ × ℚ :=
  ("furniture", f.furniture_type, f.width, f.depth, f.height)

/-! ## Python float modulo -/

/-- Python `x % m` for a positive divisor: `x - m * ⌊x / m⌋`, the
representative in `[0, m)`. -/
def pymod (x m : ℚ) : ℚ := x - m * ⌊x / m⌋

/-! ## Scene state (`SceneManager`)

Python holds shared references: the objects in `doors`/`windows`/
`furniture`, the values of `object_map` and `selected_object` alias the
same heap objects.  The embedding uses values: `object_map` stores entity
values, the selection is a `Target` (the room, or an index into one of
the typed lists), and an in-place mutation of an entity is rendered by
updating both its list slot and the `object_map` entry stored under its
id — in every state the Python API can produce those alias one object.
-/

/-- One history entry: the `save_scene()` record plus the description
added by `_save_state`. -/
structure Snapshot where
  objects : List (String × ObjectRecord)
  description : String
deriving DecidableEq, Repr

/-- What `selected_object` refers to. -/
inductive Target where
  | room
  | door (i : ℕ)
  | window (i : ℕ)
  | furn (i : ℕ)
deriving DecidableEq, Repr

structure Scene where
  room : Option Room
  doors : List Door
  windows : List Window
  furniture : List Furniture
  selected : Option Target
  last_id : ℕ
  object_map : List (String × Entity)
  history : List Snapshot
  history_index : ℤ
  uuid_seed : ℕ
deriving DecidableEq, Repr

/-- Insertion-ordered dict update `m[k] = v`: replace in place if the key
exists, else append. -/
def assocSet (m : List (String × Entity)) (k : String) (v : Entity) : List (String × Entity) :=
  match m with
  | [] => [(k, v)]
  | p :: rest => if p.1 = k then (k, v) :: rest else p :: assocSet rest k v

/-- Dict lookup `m.get(k)`. -/
def assocLookup (m : List (String × Entity)) (k : String) : Option Entity :=
  match m with
  | [] => none
  | p :: rest => if p.1 = k then some p.2 else assocLookup rest k

/-- Dict deletion `del m[k]` (keys are unique, so removing the first
occurrence is exact). -/
def assocErase (m : List (String × Entity)) (k : String) : List (String × Entity) :=
  match m with
  | [] => []
  | p :: rest => if p.1 = k then rest else p :: assocErase rest k

def Scene.targetEntity (s : Scene) : Target → Option Entity
  | .room => s.room.map Entity.room
  | .door i => (s.doors.get? i).map Entity.door
  | .window i => (s.windows.get? i).map Entity.window
  | .furn i => (s.furniture.get? i).map Entity.furn

/-- In-place mutation of the object a target refers to (`e0` is the
pre-mutation value, `e'` the mutated one): update its typed slot, and
rewrite the index entry that aliases the same Python object — identified
by carrying both the object's id as its key and the pre-mutation value
(in states the Python API produces, the entry under an entity's id is
that entity). -/
def Scene.setTargetEntity (s : Scene) (t : Target) (e0 e' : Entity) : Scene :=
  let s1 := match t, e' with
    | .room, .room r => { s with room := some r }
    | .door i, .door d => { s with doors := s.doors.set i d }
    | .window i, .window w => { s with windows := s.windows.set i w }
    | .furn i, .furn f => { s with furniture := s.furniture.set i f }
    | _, _ => s
  let m := s1.object_map.map
    (fun p => if p.1 = e0.idOf ∧ p.2 = e0 then (p.1, e') else p)
  { s1 with object_map := m }

/-- In-place mutation of the room object `r0` to `r'` (`set_room_color`
and friends): updates the `room` reference and the index entry aliasing
that room object, when one exists (rooms reach the index only through
`load_scene`). -/
def Scene.setRoomValue (s : Scene) (r0 : Room) (r' : Room) : Scene :=
  let m := s.object_map.map
    (fun p => if p.1 = r0.base.id ∧ p.2 = Entity.room r0 then (p.1, .room r') else p)
  { s with room := some r', object_map := m }

/-- `SceneManager.save_scene`: serialize every `object_map` entry. -/
def save_scene (s : Scene) : List (String × ObjectRecord) :=
  s.object_map.map (fun p => (p.1, p.2.to_dict))

/-- `SceneManager.max_history`. -/
def max_history : ℕ := 20

/-- `SceneManager._save_state`: truncate the redo branch if the cursor is
not at the end, append the snapshot, move the cursor to the end, evict
the oldest entry when the cap of 20 is exceeded. -/
def save_state (s : Scene) (description : String) : Scene :=
  let snap : Snapshot := ⟨save_scene s, description⟩
  let hist := if s.history_index < (s.history.length : ℤ) - 1
    then s.history.take (s.history_index + 1).toNat
    else s.history
  let hist := hist ++ [snap]
  let idx : ℤ := (hist.length : ℤ) - 1
  let hi : List Snapshot × ℤ :=
    if hist.length > max_history then (hist.drop 1, idx - 1) else (hist, idx)
  { s with history := hi.1, history_index := hi.2 }

/-- `SceneManager.set_room`: snapshot when replacing an existing room,
build the new `Room` (the `uuid4()` id is modelled by a deterministic
fresh string drawn from `uuid_seed`; no claim depends on its value), then
the internal call `set_room_color("wall", "#CCCCCC", [0.8, 0.8, 0.8])`.
That call passes the arguments in the wrong order, so `component` is the
list `[0.8, 0.8, 0.8]`: no branch of `set_room_color` matches and its
only effect is one more snapshot whose description interpolates the
list.  (`_hex_to_rgb("wall")` is computed and discarded.) -/
def set_room (s : Scene) (name : String) (width length height : ℚ) (room_type : String) : Scene :=
  let s1 := match s.room with
    | some _ => save_state s ("Change Room to " ++ name)
    | none => s
  let r := Room.make ("uuid-" ++ toString s1.uuid_seed) name room_type width length height
    (some Vec3.zero) (some Vec3.zero)
  let s2 := { s1 with room := some r, uuid_seed := s1.uuid_seed + 1 }
  save_state s2 "Change [0.8, 0.8, 0.8] color"

/-- `SceneManager.add_object`: assign the sequential id `str(last_id)`,
append to the matching typed collection, insert into the id index. -/
def add_object (s : Scene) (obj : Entity) : Scene :=
  let object_id := toString s.last_id
  let s := { s with last_id := s.last_id + 1 }
  let obj := obj.setId object_id
  let s := match obj with
    | .door d => { s with doors := s.doors ++ [d] }
    | .window w => { s with windows := s.windows ++ [w] }
    | .furn f => { s with furniture := s.furniture ++ [f] }
    | .room _ => s
  { s with object_map := assocSet s.object_map object_id obj }

/-- `SceneManager.add_door`: snapshot first; when no position is given
and a room exists, both position AND rotation are overwritten with the
west-wall defaults (a caller-provided rotation is discarded in that
case, exactly as in the source). -/
def add_door (s : Scene) (door_type : String) (width height : ℚ)
    (position rotation : Option Vec3) (thickness : ℚ) : Scene :=
  let s := save_state s ("Add " ++ door_type)
  let pr : Option Vec3 × Option Vec3 :=
    match position, s.room with
    | none, some r => (some ⟨-(r.width / 2), height / 2, 0⟩, some ⟨0, 90, 0⟩)
    | p, _ => (p, rotation)
  let rot : Option Vec3 := some (pr.2.getD Vec3.zero)
  let d := Door.make ("door_" ++ toString s.doors.length)
    (door_type ++ " " ++ toString (s.doors.length + 1)) door_type width height pr.1 rot
  let d := { d with thickness := max 0.01 thickness }
  add_object s (.door d)

/-- `SceneManager.add_window`: as `add_door`, with the north-wall
default placement. -/
def add_window (s : Scene) (window_type : String) (width height : ℚ)
    (position rotation : Option Vec3) : Scene :=
  let s := save_state s ("Add " ++ window_type)
  let pr : Option Vec3 × Option Vec3 :=
    match position, s.room with
    | none, some r => (some ⟨0, r.height / 2, -(r.length / 2)⟩, some ⟨0, 0, 0⟩)
    | p, _ => (p, rotation)
  let rot : Option Vec3 := some (pr.2.getD Vec3.zero)
  let w := Window.make ("window_" ++ toString s.windows.length)
    (window_type ++ " " ++ toString (s.windows.length + 1)) window_type width height pr.1 rot
  add_object s (.window w)

/-- The category-derivation table in `SceneManager.add_furniture`. -/
def furnitureCategory (furniture_type : String) : String :=
  if furniture_type ∈ ["Dining Chair", "Office Chair", "Armchair"] then "Chairs"
  else if furniture_type ∈ ["Dining Table", "Coffee Table", "Desk"] then "Tables"
  else if furniture_type ∈ ["2-Seater Sofa", "3-Seater Sofa", "L-Shaped Sofa"] then "Sofas"
  else if furniture_type ∈ ["Single Bed", "Double Bed", "King Size Bed"] then "Beds"
  else if furniture_type ∈ ["Single Door Cupboard", "Double Door Cupboard", "Sliding Door Cupboard"]
    then "Cupboards"
  else "Miscellaneous"

/-- `SceneManager.add_furniture`: snapshot first; default position is the
room centre resting on the floor (`[0, height/2, 0]`, no room check). -/
def add_furniture (s : Scene) (furniture_type : String) (width depth height : ℚ)
    (position rotation : Option Vec3) (category : Option String) : Scene :=
  let s := save_state s ("Add " ++ furniture_type)
  let pos : Vec3 := position.getD ⟨0, height / 2, 0⟩
  let rot : Vec3 := rotation.getD Vec3.zero
  let cat := category.getD (furnitureCategory furniture_type)
  let f := Furniture.make ("furniture_" ++ toString s.furniture.length)
    (furniture_type ++ " " ++ toString (s.furniture.length + 1)) furniture_type cat
    width depth height (some pos) (some rot)
  add_object s (.furn f)

/-- `SceneManager.clear_scene`: snapshot, empty every collection and the
index, drop the selection, reset the id counter, then install a default
empty room. -/
def clear_scene (s : Scene) : Scene :=
  let s := save_state s "Clear Scene"
  let s := { s with doors := [], windows := [], furniture := [], object_map := []
                    selected := none, last_id := 0 }
  set_room s "Empty Room" 5 5 2.5 "bedroom"

/-- One iteration of the `load_scene` loop: dispatch on the `"type"`
discriminant, deserialize, store in the index and (for non-rooms) append
to the typed collection. -/
def loadRecord (s : Scene) (k : String) : ObjectRecord → Scene
  | .room rec =>
    let r := Room.from_dict rec
    { s with room := some r, object_map := assocSet s.object_map k (.room r) }
  | .door rec =>
    let d := Door.from_dict rec
    { s with object_map := assocSet s.object_map k (.door d), doors := s.doors ++ [d] }
  | .window rec =>
    let w := Window.from_dict rec
    { s with object_map := assocSet s.object_map k (.window w), windows := s.windows ++ [w] }
  | .furn rec =>
    let f := Furniture.from_dict rec
    { s with object_map := assocSet s.object_map k (.furn f), furniture := s.furniture ++ [f] }

/-- `SceneManager.load_scene`: clear the scene, reset the room reference,
replay every record, and fall back to a default room when none was
loaded.  Typed records cannot raise, so the `except` branch is
unreachable and the call always returns `True`. -/
def load_scene (s : Scene) (data : List (String × ObjectRecord)) : Bool × Scene :=
  let s := clear_scene s
  let s := { s with room := none }
  let s := data.foldl (fun s p => loadRecord s p.1 p.2) s
  let s := if s.room = none then set_room s "Living Room" 5 6 2.5 "bedroom" else s
  (true, s)

/-- `SceneManager.can_undo`. -/
def can_undo (s : Scene) : Bool := 0 < s.history_index

/-- `SceneManager.can_redo`. -/
def can_redo (s : Scene) : Bool := s.history_index < (s.history.length : ℤ) - 1

/-- `SceneManager.undo`: decrement the cursor, restore that snapshot via
`load_scene`, then return `history[history_index + 1]`'s description.
`load_scene` itself appends snapshots (through `clear_scene` and
`set_room`) which move `history_index` to the end of the list, so that
final read is out of range: the `none` in the first component models the
uncaught `IndexError` (raised after the state was already replaced). -/
def undo (s : Scene) : Option String × Scene :=
  if ¬ can_undo s then (some "", s)
  else
    let s1 := { s with history_index := s.history_index - 1 }
    match s1.history.get? s1.history_index.toNat with
    | none => (none, s1)
    | some prev =>
      let s2 := (load_scene s1 prev.objects).2
      match s2.history.get? (s2.history_index + 1).toNat with
      | none => (none, s2)
      | some nxt => (some nxt.description, s2)

/-- `SceneManager.redo`: increment the cursor, restore that snapshot, and
return its description (read before the restore, so no out-of-range
access here). -/
def redo (s : Scene) : Option String × Scene :=
  if ¬ can_redo s then (some "", s)
  else
    let s1 := { s with history_index := s.history_index + 1 }
    match s1.history.get? s1.history_index.toNat with
    | none => (none, s1)
    | some nxt => (some nxt.description, (load_scene s1 nxt.objects).2)

/-- `SceneManager.get_object_by_id`. -/
def get_object_by_id (s : Scene) (object_id : String) : Option Entity :=
  assocLookup s.object_map object_id

/-- `SceneManager.set_selected_object`: clear the previous selection's
`is_selected` flag, install the new selection, set its flag. -/
def set_selected_object (s : Scene) (t : Option Target) : Scene :=
  let s := match s.selected with
    | some t0 =>
      match s.targetEntity t0 with
      | some e => s.setTargetEntity t0 e (e.setSelectedFlag false)
      | none => s
    | none => s
  let s := { s with selected := t }
  match t with
  | some t1 =>
    match s.targetEntity t1 with
    | some e => s.setTargetEntity t1 e (e.setSelectedFlag true)
    | none => s
  | none => s

/-- Removal of the selected object from its typed collection
(`delete_selected_object`'s `isinstance`/`remove` block; list `remove`
removes by identity, i.e. the slot the target refers to). -/
def removeTargetFromList (s : Scene) : Target → Scene
  | .door i => { s with doors := s.doors.eraseIdx i }
  | .window i => { s with windows := s.windows.eraseIdx i }
  | .furn i => { s with furniture := s.furniture.eraseIdx i }
  | .room => s

/-- `SceneManager.delete_selected_object`: no-op on empty selection or
the room; otherwise snapshot, remove from the typed collection, and only
if the object's id is actually a key of the index: delete that key,
clear the selection and return `True` — otherwise return `False` with
the snapshot and collection removal already performed. -/
def delete_selected_object (s : Scene) : Bool × Scene :=
  match s.selected with
  | none => (false, s)
  | some t =>
    if t = Target.room then (false, s)
    else match s.targetEntity t with
      | none => (false, s)
      | some e =>
        let s1 := save_state s ("Delete " ++ e.nameOf)
        let s2 := removeTargetFromList s1 t
        if (assocLookup s2.object_map e.idOf).isSome then
          (true, { s2 with object_map := assocErase s2.object_map e.idOf, selected := none })
        else (false, s2)

/-- The clamping block of `move_selected_object`: with a room, clamp X
and Z into the half-extent minus the `0.1` margin and Y into
`[0, height - 0.1]`; with no room the position passes through. -/
def clampToRoom (ro : Option Room) (q : Vec3) : Vec3 :=
  match ro with
  | some r =>
    let hw := r.width / 2 - 0.1
    let hl := r.length / 2 - 0.1
    let mh := r.height - 0.1
    ⟨max (-hw) (min hw q.x), max 0 (min mh q.y), max (-hl) (min hl q.z)⟩
  | none => q

/-- `SceneManager.move_selected_object`: no-op on empty or room
selection; otherwise add the deltas, clamp into the room bounds with a
`0.1` margin (when a room exists), write the position back, snapshot
AFTER the mutation, return `True`. -/
def move_selected_object (s : Scene) (dx dy dz : ℚ) : Bool × Scene :=
  match s.selected with
  | none => (false, s)
  | some t =>
    if t = Target.room then (false, s)
    else match s.targetEntity t with
      | none => (false, s)
      | some e =>
        let p := e.positionOf
        let q := clampToRoom s.room ⟨p.x + dx, p.y + dy, p.z + dz⟩
        let s1 := s.setTargetEntity t e (e.setPosition q)
        (true, save_state s1 ("Move " ++ e.nameOf))

/-- `SceneManager.rotate_selected_object`: no-op on empty or room
selection; otherwise add the deltas componentwise modulo 360, write the
rotation back, snapshot AFTER the mutation, return `True`. -/
def rotate_selected_object (s : Scene) (dx dy dz : ℚ) : Bool × Scene :=
  match s.selected with
  | none => (false, s)
  | some t =>
    if t = Target.room then (false, s)
    else match s.targetEntity t with
      | none => (false, s)
      | some e =>
        let r := e.rotationOf
        let q : Vec3 := ⟨pymod (r.x + dx) 360, pymod (r.y + dy) 360, pymod (r.z + dz) 360⟩
        let s1 := s.setTargetEntity t e (e.setRotation q)
        (true, save_state s1 ("Rotate " ++ e.nameOf))

/-- The `component` argument of `set_room_color`; `other` covers any
string matching no branch. -/
inductive Component where
  | walls
  | north_wall
  | south_wall
  | east_wall
  | west_wall
  | floor
  | ceiling
  | other (repr : String)
deriving DecidableEq, Repr

def Component.pyStr : Component → String
  | .walls => "walls"
  | .north_wall => "north_wall"
  | .south_wall => "south_wall"
  | .east_wall => "east_wall"
  | .west_wall => "west_wall"
  | .floor => "floor"
  | .ceiling => "ceiling"
  | .other r => r

/-- `SceneManager.set_room_color` for a string color argument (every call
site relevant to the claims passes a hex string): snapshot, convert, then
per-component update.  `"walls"` resets all four overrides; an individual
wall sets its override and back-fills the shared `wall_color` default
only while the other three overrides are all unset. -/
def set_room_color (s : Scene) (color_hex : String) (opacity : ℚ) (component : Component) : Scene :=
  match s.room with
  | none => s
  | some r =>
    let s := save_state s ("Change " ++ component.pyStr ++ " color")
    let color_rgb := hex_to_rgb_str color_hex
    match component with
    | .walls =>
      let r' := { r with
        wall_color := color_rgb
        north_wall_color := none
        south_wall_color := none
        east_wall_color := none
        west_wall_color := none
        wall_opacity := opacity }
      s.setRoomValue r r'
    | .north_wall =>
      let r1 := { r with north_wall_color := some color_rgb }
      let r2 := if r.south_wall_color = none ∧ r.east_wall_color = none ∧ r.west_wall_color = none
        then { r1 with wall_color := color_rgb } else r1
      s.setRoomValue r { r2 with wall_opacity := opacity }
    | .south_wall =>
      let r1 := { r with south_wall_color := some color_rgb }
      let r2 := if r.north_wall_color = none ∧ r.east_wall_color = none ∧ r.west_wall_color = none
        then { r1 with wall_color := color_rgb } else r1
      s.setRoomValue r { r2 with wall_opacity := opacity }
    | .east_wall =>
      let r1 := { r with east_wall_color := some color_rgb }
      let r2 := if r.north_wall_color = none ∧ r.south_wall_color = none ∧ r.west_wall_color = none
        then { r1 with wall_color := color_rgb } else r1
      s.setRoomValue r { r2 with wall_opacity := opacity }
    | .west_wall =>
      let r1 := { r with west_wall_color := some color_rgb }
      let r2 := if r.north_wall_color = none ∧ r.south_wall_color = none ∧ r.east_wall_color = none
        then { r1 with wall_color := color_rgb } else r1
      s.setRoomValue r { r2 with wall_opacity := opacity }
    | .floor =>
      s.setRoomValue r { r with floor_color := color_rgb, floor_opacity := opacity }
    | .ceiling =>
      s.setRoomValue r { r with ceiling_color := color_rgb, ceiling_opacity := opacity }
    | .other _ => s

/-- The scene before `SceneManager.__init__` runs. -/
def sceneBlank : Scene :=
  { room := none, doors := [], windows := [], furniture := [], selected := none
    last_id := 0, object_map := [], history := [], history_index := -1, uuid_seed := 0 }

/-- `SceneManager.__init__`: install the default room, then clear the
history. -/
def initScene : Scene :=
  let s := set_room sceneBlank "Living Room" 5 6 2.5 "bedroom"
  { s with history := [], history_index := -1 }

/-! ## Derived notions used by the theorems -/

/-- Are all characters of a string hex digits? -/
def allHexDigits (s : String) : Bool := s.data.all (fun c => (hexVal c).isSome)

/-- The entity that one `load_scene` iteration builds from a record. -/
def recordEntity : ObjectRecord → Entity
  | .room r => .room (Room.from_dict r)
  | .door d => .door (Door.from_dict d)
  | .window w => .window (Window.from_dict w)
  | .furn f => .furn (Furniture.from_dict f)

/-- Attributes of a door the serialize/deserialize cycle does not
preserve: only the `is_selected` flag (reset to false). -/
def canonDoor (d : Door) : Door :=
  let b := { d.base with is_selected := false }
  { d with base := b }

/-- Attributes of a window the cycle does not preserve: `is_selected` is
reset, `segments` is recomputed from the window type by the property
setter, and `angle` is clamped into `[90, 180]` for bay windows and reset
to the constructor's `0` for all others. -/
def canonWindow (w : Window) : Window :=
  let segs : ℤ :=
    if w.window_type = "Bay Window" then max 3 w.segments
    else if w.window_type = "Double Window" then 2
    else 1
  let ang : ℚ := if w.window_type = "Bay Window" then max 90 (min 180 w.angle) else 0
  let b := { w.base with is_selected := false }
  { w with base := b, segments := segs, angle := ang }

/-- Attributes of a furniture item the cycle does not preserve: only
`is_selected`. -/
def canonFurn (f : Furniture) : Furniture :=
  let b := { f.base with is_selected := false }
  { f with base := b }

/-- What an indexed entity becomes after `load_scene (save_scene ·)`. -/
def canonEntity : Entity → Entity
  | .room r => .room r
  | .door d => .door (canonDoor d)
  | .window w => .window (canonWindow w)
  | .furn f => .furn (canonFurn f)

/-- Class invariant of `Door`: established by the constructor and every
setter (dimension floors, clamped open angle, `is_open` coherent with
the angle, truthy-or-absent texture). -/
def DoorInv (d : Door) : Prop :=
  0.6 ≤ d.width ∧ 1.8 ≤ d.height ∧ 0.01 ≤ d.thickness ∧
  0 ≤ d.open_angle ∧ d.open_angle ≤ 90 ∧
  d.is_open = decide (0 < d.open_angle) ∧ d.texture ≠ some ""

/-- Class invariant of `Window`. -/
def WindowInv (w : Window) : Prop :=
  0.5 ≤ w.width ∧ 0.5 ≤ w.height ∧ 0.05 ≤ w.thickness ∧
  0 ≤ w.glass_transparency ∧ w.glass_transparency ≤ 1 ∧
  0 ≤ w.open_percentage ∧ w.open_percentage ≤ 100 ∧
  w.is_open = decide (0 < w.open_percentage) ∧ w.texture ≠ some ""

/-- Class invariant of `Furniture`. -/
def FurnInv (f : Furniture) : Prop :=
  0.1 ≤ f.width ∧ 0.1 ≤ f.depth ∧ 0.1 ≤ f.height ∧
  validMaterial f.material_type = true ∧ f.texture ≠ some ""

def entityInv : Entity → Prop
  | .room _ => True
  | .door d => DoorInv d
  | .window w => WindowInv w
  | .furn f => FurnInv f

instance : DecidablePred DoorInv := fun _ => by unfold DoorInv; infer_instance

instance : DecidablePred WindowInv := fun _ => by unfold WindowInv; infer_instance

instance : DecidablePred FurnInv := fun _ => by unfold FurnInv; infer_instance

instance : DecidablePred entityInv := fun e => by cases e <;> simp [entityInv] <;> infer_instance

/-- Iterated `move_selected_object` (return values discarded). -/
def applyMoves (s : Scene) (ds : List Vec3) : Scene :=
  ds.foldl (fun s d => (move_selected_object s d.x d.y d.z).2) s

/-- Iterated `rotate_selected_object` (return values discarded). -/
def applyRotates (s : Scene) (ds : List Vec3) : Scene :=
  ds.foldl (fun s d => (rotate_selected_object s d.x d.y d.z).2) s

/-- The object `selected_object` refers to. -/
def Scene.selectedEntity (s : Scene) : Option Entity := s.selected.bind s.targetEntity

/-! ## Operation traces (used by the id-index invariants) -/

/-- One public `SceneManager` call, for reasoning about arbitrary call
sequences.  Each call corresponds to one UI event; the state an
exception-raising call (`undo`) leaves behind is the state the next
event observes. -/
inductive Op where
  | set_room (name : String) (w l h : ℚ) (rt : String)
  | add_door (dt : String) (w h : ℚ) (pos rot : Option Vec3) (th : ℚ)
  | add_window (wt : String) (w h : ℚ) (pos rot : Option Vec3)
  | add_furniture (ft : String) (w d h : ℚ) (pos rot : Option Vec3) (cat : Option String)
  | clear_scene
  | load_scene (data : List (String × ObjectRecord))
  | undo
  | redo
  | delete_selected
  | move_selected (d : Vec3)
  | rotate_selected (d : Vec3)
  | set_selected (t : Option Target)
  | set_room_color (c : String) (o : ℚ) (comp : Component)
deriving DecidableEq

def runOp (s : Scene) : Op → Scene
  | .set_room name w l h rt => set_room s name w l h rt
  | .add_door dt w h pos rot th => add_door s dt w h pos rot th
  | .add_window wt w h pos rot => add_window s wt w h pos rot
  | .add_furniture ft w d h pos rot cat => add_furniture s ft w d h pos rot cat
  | .clear_scene => clear_scene s
  | .load_scene data => (load_scene s data).2
  | .undo => (undo s).2
  | .redo => (redo s).2
  | .delete_selected => (delete_selected_object s).2
  | .move_selected d => (move_selected_object s d.x d.y d.z).2
  | .rotate_selected d => (rotate_selected_object s d.x d.y d.z).2
  | .set_selected t => set_selected_object s t
  | .set_room_color c o comp => set_room_color s c o comp

def runOps (s : Scene) (ops : List Op) : Scene := ops.foldl runOp s

/-- An op whose `load_scene` payload (if any) contains no Room record. -/
def opRoomFree : Op → Prop
  | .load_scene data => ∀ p ∈ data, p.2.isRoomRec = false
  | _ => True

instance : DecidablePred opRoomFree := fun op => by
  cases op <;> unfold opRoomFree <;> infer_instance

/-- No value of the id index is a Room. -/
def mapNoRoom (m : List (String × Entity)) : Prop := ∀ p ∈ m, p.2.isRoom = false

/-- A snapshot whose serialized objects contain no Room record. -/
def snapNoRoom (sn : Snapshot) : Prop := ∀ p ∈ sn.objects, p.2.isRoomRec = false

/-- The strengthened index invariant: no Room in the index and no Room
record in any stored history snapshot. -/
def noRoomInv (s : Scene) : Prop := mapNoRoom s.object_map ∧ ∀ sn ∈ s.history, snapNoRoom sn

/-! ## Concrete demonstration states -/

/-- Fresh manager, then two `add_door("Single Door", 0.9, 2.0)` calls. -/
def demoTwoDoors : Scene :=
  add_door (add_door initScene "Single Door" 0.9 2.0 none none 0.05)
    "Single Door" 0.9 2.0 none none 0.05

/-- A serialized single door with id "0", as a saved scene would hold. -/
def demoDoorRecord : DoorRecord :=
  (Door.make "0" "Single Door 1" "Single Door" 0.9 2.0 none none).to_dict

/-- Fresh manager, `load_scene` of a one-door scene, then one
`add_door` call. -/
def demoLoadThenAdd : Scene :=
  add_door (load_scene initScene [("0", ObjectRecord.door demoDoorRecord)]).2
    "Single Door" 0.9 2.0 none none 0.05

/-- Fresh manager with a door, a double window and a chair added. -/
def demoFullScene : Scene :=
  add_furniture
    (add_window (add_door initScene "Single Door" 0.9 2.0 none none 0.05)
      "Double Window" 1.2 1.0 none none)
    "Dining Chair" 0.5 0.5 0.9 none none none

/-- Fresh manager followed by `set_room("Bedroom", 4, 4, 2.5)`. -/
def demoBedroomScene : Scene := set_room initScene "Bedroom" 4 4 2.5 "bedroom"

/-- A door selected while its id is absent from the id index (such
states are reachable: the id-collision bug of `add_object` after
`load_scene` deletes the wrong index entry, leaving a live, selectable
door with no index entry). -/
def ghostDoor : Door := Door.make "0" "Ghost Door" "Single Door" 0.9 2.0 none none

/-- A scene state whose selection refers to `ghostDoor` while the id
index is empty. -/
def ghostScene : Scene :=
  { room := initScene.room
    doors := [ghostDoor]
    windows := []
    furniture := []
    selected := some (Target.door 0)
    last_id := 1
    object_map := []
    history := []
    history_index := -1
    uuid_seed := 9 }

/-- Two single windows, equal type/width/height, different thickness
(set through the thickness setter). -/
def demoWindowA : Window := Window.make "w1" "Single Window 1" "Single Window" 1.2 1.0 none none

def demoWindowB : Window :=
  { Window.make "w2" "Single Window 2" "Single Window" 1.2 1.0 none none with
    thickness := max 0.05 0.2 }

/-- Two bay windows, equal type/width/height, different segment counts
(set through the segments setter). -/
def demoBayA : Window :=
  (Window.make "w3" "Bay Window 1" "Bay Window" 2.0 1.2 none none).set_segments 3

def demoBayB : Window :=
  (Window.make "w4" "Bay Window 2" "Bay Window" 2.0 1.2 none none).set_segments 4

/-- Two single doors, equal type/width/height, different thickness. -/
def demoDoorA : Door := Door.make "d1" "Single Door 1" "Single Door" 0.9 2.0 none none

def demoDoorB : Door :=
  { Door.make "d2" "Single Door 2" "Single Door" 0.9 2.0 none none with
    thickness := max 0.01 0.07 }

/-- A scene with a room and a selected door, for instantiating the
move/rotate theorems. -/
def demoSelScene : Scene :=
  { room := some (Room.make "rid" "Demo Room" "bedroom" 5 6 2.5 none none)
    doors := [demoDoorA]
    windows := []
    furniture := []
    selected := some (Target.door 0)
    last_id := 1
    object_map := [("d1", Entity.door demoDoorA)]
    history := []
    history_index := -1
    uuid_seed := 0 }

/-- The per-component effect of `set_room_color` on the room object
(extracted for reasoning; `set_room_color` is proved to act on `room`
exactly like this). -/
def roomColorUpdate (r : Room) (color_rgb : RGB) (opacity : ℚ) : Component → Room
  | .walls =>
    { r with
      wall_color := color_rgb
      north_wall_color := none
      south_wall_color := none
      east_wall_color := none
      west_wall_color := none
      wall_opacity := opacity }
  | .north_wall =>
    let r1 := { r with north_wall_color := some color_rgb }
    let r2 := if r.south_wall_color = none ∧ r.east_wall_color = none ∧ r.west_wall_color = none
      then { r1 with wall_color := color_rgb } else r1
    { r2 with wall_opacity := opacity }
  | .south_wall =>
    let r1 := { r with south_wall_color := some color_rgb }
    let r2 := if r.north_wall_color = none ∧ r.east_wall_color = none ∧ r.west_wall_color = none
      then { r1 with wall_color := color_rgb } else r1
    { r2 with wall_opacity := opacity }
  | .east_wall =>
    let r1 := { r with east_wall_color := some color_rgb }
    let r2 := if r.north_wall_color = none ∧ r.south_wall_color = none ∧ r.west_wall_color = none
      then { r1 with wall_color := color_rgb } else r1
    { r2 with wall_opacity := opacity }
  | .west_wall =>
    let r1 := { r with west_wall_color := some color_rgb }
    let r2 := if r.north_wall_color = none ∧ r.south_wall_color = none ∧ r.east_wall_color = none
      then { r1 with wall_color := color_rgb } else r1
    { r2 with wall_opacity := opacity }
  | .floor => { r with floor_color := color_rgb, floor_opacity := opacity }
  | .ceiling => { r with ceiling_color := color_rgb, ceiling_opacity := opacity }
  | .other _ => r

/-! ## Theorems -/

theorem Entity.rotationOf_setRotation (e : Entity) (q : Vec3) : (e.setRotation q).rotationOf = q := by
  cases e <;> rfl

theorem Entity.setRotation_setRotation (e : Entity) (a b : Vec3) :
    (e.setRotation a).setRotation b = e.setRotation b := by
  cases e <;> rfl

/-- `_save_state` only touches the history fields. -/
theorem save_state_eq (s : Scene) (d : String) :
    ∃ h i, save_state s d = { s with history := h, history_index := i } := ⟨_, _, rfl⟩

theorem save_state_room (s : Scene) (d : String) : (save_state s d).room = s.room := by
  obtain ⟨h, i, heq⟩ := save_state_eq s d; rw [heq]

theorem save_state_selected (s : Scene) (d : String) : (save_state s d).selected = s.selected := by
  obtain ⟨h, i, heq⟩ := save_state_eq s d; rw [heq]

theorem save_state_doors (s : Scene) (d : String) : (save_state s d).doors = s.doors := by
  obtain ⟨h, i, heq⟩ := save_state_eq s d; rw [heq]

theorem save_state_windows (s : Scene) (d : String) : (save_state s d).windows = s.windows := by
  obtain ⟨h, i, heq⟩ := save_state_eq s d; rw [heq]

theorem save_state_furniture (s : Scene) (d : String) : (save_state s d).furniture = s.furniture := by
  obtain ⟨h, i, heq⟩ := save_state_eq s d; rw [heq]

theorem save_state_map (s : Scene) (d : String) : (save_state s d).object_map = s.object_map := by
  obtain ⟨h, i, heq⟩ := save_state_eq s d; rw [heq]

theorem save_state_targetEntity (s : Scene) (d : String) (t : Target) :
    (save_state s d).targetEntity t = s.targetEntity t := by
  obtain ⟨h, i, heq⟩ := save_state_eq s d
  cases t <;> rw [heq] <;> rfl

theorem setTargetEntity_door (s : Scene) (i : ℕ) (d : Door) (d' : Door)
    (hd : s.doors.get? i = some d) :
    (s.setTargetEntity (Target.door i) (Entity.door d) (Entity.door d')).selected = s.selected ∧
    (s.setTargetEntity (Target.door i) (Entity.door d) (Entity.door d')).room = s.room ∧
    (s.setTargetEntity (Target.door i) (Entity.door d) (Entity.door d')).targetEntity (Target.door i)
      = some (Entity.door d') := by
  obtain ⟨hlt, -⟩ := List.get?_eq_some.mp hd
  unfold Scene.setTargetEntity Scene.targetEntity
  refine ⟨rfl, rfl, ?_⟩
  dsimp only
  rw [List.get?_eq_getElem?, List.getElem?_set_self hlt]
  rfl

theorem setTargetEntity_window (s : Scene) (i : ℕ) (w : Window) (w' : Window)
    (hw : s.windows.get? i = some w) :
    (s.setTargetEntity (Target.window i) (Entity.window w) (Entity.window w')).selected = s.selected ∧
    (s.setTargetEntity (Target.window i) (Entity.window w) (Entity.window w')).room = s.room ∧
    (s.setTargetEntity (Target.window i) (Entity.window w) (Entity.window w')).targetEntity (Target.window i)
      = some (Entity.window w') := by
  obtain ⟨hlt, -⟩ := List.get?_eq_some.mp hw
  unfold Scene.setTargetEntity Scene.targetEntity
  refine ⟨rfl, rfl, ?_⟩
  dsimp only
  rw [List.get?_eq_getElem?, List.getElem?_set_self hlt]
  rfl

theorem setTargetEntity_furn (s : Scene) (i : ℕ) (f : Furniture) (f' : Furniture)
    (hf : s.furniture.get? i = some f) :
    (s.setTargetEntity (Target.furn i) (Entity.furn f) (Entity.furn f')).selected = s.selected ∧
    (s.setTargetEntity (Target.furn i) (Entity.furn f) (Entity.furn f')).room = s.room ∧
    (s.setTargetEntity (Target.furn i) (Entity.furn f) (Entity.furn f')).targetEntity (Target.furn i)
      = some (Entity.furn f') := by
  obtain ⟨hlt, -⟩ := List.get?_eq_some.mp hf
  unfold Scene.setTargetEntity Scene.targetEntity
  refine ⟨rfl, rfl, ?_⟩
  dsimp only
  rw [List.get?_eq_getElem?, List.getElem?_set_self hlt]
  rfl

/-- Combined: mutating the selected (non-room) entity in place keeps the
selection, the room, and makes the target read back the new value. -/
theorem setTargetEntity_invs (s : Scene) (t : Target) (e : Entity) (g : Entity → Entity)
    (hnr : t ≠ Target.room) (he : s.targetEntity t = some e)
    (hgd : ∀ d : Door, ∃ d' : Door, g (Entity.door d) = Entity.door d')
    (hgw : ∀ w : Window, ∃ w' : Window, g (Entity.window w) = Entity.window w')
    (hgf : ∀ f : Furniture, ∃ f' : Furniture, g (Entity.furn f) = Entity.furn f') :
    (s.setTargetEntity t e (g e)).selected = s.selected ∧
    (s.setTargetEntity t e (g e)).room = s.room ∧
    (s.setTargetEntity t e (g e)).targetEntity t = some (g e) := by
  cases t with
  | room => exact absurd rfl hnr
  | door i =>
    unfold Scene.targetEntity at he
    dsimp only at he
    cases hget : s.doors.get? i with
    | none => rw [hget] at he; simp at he
    | some d =>
      rw [hget] at he
      simp only [Option.map_some', Option.some_inj] at he
      subst he
      obtain ⟨y, hy⟩ := hgd d
      rw [hy]
      exact setTargetEntity_door s i d y hget
  | window i =>
    unfold Scene.targetEntity at he
    dsimp only at he
    cases hget : s.windows.get? i with
    | none => rw [hget] at he; simp at he
    | some w =>
      rw [hget] at he
      simp only [Option.map_some', Option.some_inj] at he
      subst he
      obtain ⟨y, hy⟩ := hgw w
      rw [hy]
      exact setTargetEntity_window s i w y hget
  | furn i =>
    unfold Scene.targetEntity at he
    dsimp only at he
    cases hget : s.furniture.get? i with
    | none => rw [hget] at he; simp at he
    | some f =>
      rw [hget] at he
      simp only [Option.map_some', Option.some_inj] at he
      subst he
      obtain ⟨y, hy⟩ := hgf f
      rw [hy]
      exact setTargetEntity_furn s i f y hget

/-- One `rotate_selected_object` call: value-level effect. -/
theorem rotate_step (s : Scene) (t : Target) (e : Entity) (dx dy dz : ℚ)
    (ht : s.selected = some t) (hnr : t ≠ Target.room) (he : s.targetEntity t = some e) :
    (rotate_selected_object s dx dy dz).2 =
      save_state (s.setTargetEntity t e (e.setRotation
        ⟨pymod (e.rotationOf.x + dx) 360, pymod (e.rotationOf.y + dy) 360,
         pymod (e.rotationOf.z + dz) 360⟩)) ("Rotate " ++ e.nameOf) := by
  unfold rotate_selected_object
  rw [ht]
  simp only [hnr, if_neg, he]
  simp [hnr]


theorem pymod_nonneg (x m : ℚ) (hm : 0 < m) : 0 ≤ pymod x m := by
  unfold pymod
  have hfr : x - m * ⌊x / m⌋ = m * Int.fract (x / m) := by
    unfold Int.fract
    field_simp
  rw [hfr]
  have h := Int.fract_nonneg (x / m)
  positivity

theorem pymod_lt (x m : ℚ) (hm : 0 < m) : pymod x m < m := by
  unfold pymod
  have hfr : x - m * ⌊x / m⌋ = m * Int.fract (x / m) := by
    unfold Int.fract
    field_simp
  rw [hfr]
  have h := Int.fract_lt_one (x / m)
  calc m * Int.fract (x / m) < m * 1 := (mul_lt_mul_left hm).mpr h
    _ = m := mul_one m

theorem pymod_add_left (a b m : ℚ) (hm : 0 < m) : pymod (pymod a m + b) m = pymod (a + b) m := by
  unfold pymod
  have hne : m ≠ 0 := ne_of_gt hm
  have key : (a - m * ⌊a / m⌋ + b) / m = (a + b) / m - (⌊a / m⌋ : ℚ) := by
    field_simp
    ring
  rw [key, Int.floor_sub_int]
  push_cast
  ring

/-- Iterated rotation: selection survives and the target's rotation is
the componentwise accumulated sum mod 360. -/
theorem rotate_chain (ds : List Vec3) : ∀ (s : Scene) (t : Target) (e : Entity),
    s.selected = some t → t ≠ Target.room → s.targetEntity t = some e → ds ≠ [] →
    (applyRotates s ds).selected = some t ∧
    (applyRotates s ds).targetEntity t =
      some (e.setRotation ⟨pymod (e.rotationOf.x + (ds.map Vec3.x).sum) 360,
                           pymod (e.rotationOf.y + (ds.map Vec3.y).sum) 360,
                           pymod (e.rotationOf.z + (ds.map Vec3.z).sum) 360⟩) := by
  induction ds with
  | nil => intro s t e _ _ _ hne; exact absurd rfl hne
  | cons d ds ih =>
    intro s t e ht hnr he _
    have hstep := rotate_step s t e d.x d.y d.z ht hnr he
    have hinv := setTargetEntity_invs s t e
      (fun x => x.setRotation ⟨pymod (x.rotationOf.x + d.x) 360,
        pymod (x.rotationOf.y + d.y) 360, pymod (x.rotationOf.z + d.z) 360⟩) hnr he
      (fun d0 => ⟨_, rfl⟩) (fun w0 => ⟨_, rfl⟩) (fun f0 => ⟨_, rfl⟩)
    have happ : applyRotates s (d :: ds) = applyRotates (rotate_selected_object s d.x d.y d.z).2 ds := rfl
    have hsel1 : (rotate_selected_object s d.x d.y d.z).2.selected = some t := by
      rw [hstep, save_state_selected, hinv.1, ht]
    have htar1 : (rotate_selected_object s d.x d.y d.z).2.targetEntity t =
        some (e.setRotation ⟨pymod (e.rotationOf.x + d.x) 360,
          pymod (e.rotationOf.y + d.y) 360, pymod (e.rotationOf.z + d.z) 360⟩) := by
      rw [hstep, save_state_targetEntity]
      exact hinv.2.2
    by_cases hds : ds = []
    · subst hds
      rw [happ]
      simp only [applyRotates, List.foldl_nil]
      refine ⟨hsel1, ?_⟩
      rw [htar1]
      simp
    · rw [happ]
      have := ih (rotate_selected_object s d.x d.y d.z).2 t
        (e.setRotation ⟨pymod (e.rotationOf.x + d.x) 360,
          pymod (e.rotationOf.y + d.y) 360, pymod (e.rotationOf.z + d.z) 360⟩)
        hsel1 hnr htar1 hds
      refine ⟨this.1, ?_⟩
      rw [this.2, Entity.setRotation_setRotation, Entity.rotationOf_setRotation]
      have h360 : (0 : ℚ) < 360 := by norm_num
      simp only [List.map_cons, List.sum_cons]
      congr 2
      rw [Vec3.mk.injEq]
      refine ⟨?_, ?_, ?_⟩
      all_goals rw [pymod_add_left _ _ _ h360]; ring_nf



theorem Entity.positionOf_setPosition (e : Entity) (q : Vec3) : (e.setPosition q).positionOf = q := by
  cases e <;> rfl

/-- One `move_selected_object` call: value-level effect. -/
theorem move_step (s : Scene) (t : Target) (e : Entity) (dx dy dz : ℚ)
    (ht : s.selected = some t) (hnr : t ≠ Target.room) (he : s.targetEntity t = some e) :
    (move_selected_object s dx dy dz).2 =
      save_state (s.setTargetEntity t e (e.setPosition
        (clampToRoom s.room ⟨e.positionOf.x + dx, e.positionOf.y + dy, e.positionOf.z + dz⟩)))
        ("Move " ++ e.nameOf) := by
  unfold move_selected_object
  rw [ht]
  simp only [hnr, if_neg, he]
  simp [hnr]

/-- The clamp lands inside the claimed bounds whenever the room
dimensions respect the constructor floor of one metre. -/
theorem clampToRoom_bounds (r : Room) (q : Vec3)
    (h1 : 1 ≤ r.width) (h2 : 1 ≤ r.length) (h3 : 1 ≤ r.height) :
    |(clampToRoom (some r) q).x| ≤ r.width / 2 - 0.1 ∧
    0 ≤ (clampToRoom (some r) q).y ∧ (clampToRoom (some r) q).y ≤ r.height - 0.1 ∧
    |(clampToRoom (some r) q).z| ≤ r.length / 2 - 0.1 := by
  unfold clampToRoom
  dsimp only
  have hw : (0 : ℚ) < r.width / 2 - 0.1 := by norm_num; linarith
  have hl : (0 : ℚ) < r.length / 2 - 0.1 := by norm_num; linarith
  have hh : (0 : ℚ) ≤ r.height - 0.1 := by norm_num; linarith
  refine ⟨?_, ?_, ?_, ?_⟩
  · rw [abs_le]
    constructor
    · exact le_max_left _ _
    · exact max_le (by linarith) (min_le_left _ _)
  · exact le_max_left 0 _
  · exact max_le hh (min_le_left _ _)
  · rw [abs_le]
    constructor
    · exact le_max_left _ _
    · exact max_le (by linarith) (min_le_left _ _)

/-- Iterated moves: selection and room survive; after at least one call
the target's position satisfies the clamp bounds. -/
theorem move_chain (ds : List Vec3) : ∀ (s : Scene) (t : Target) (e : Entity) (r : Room),
    s.selected = some t → t ≠ Target.room → s.targetEntity t = some e → s.room = some r →
    (applyMoves s ds).selected = some t ∧
    (applyMoves s ds).room = some r ∧
    ∃ e', (applyMoves s ds).targetEntity t = some e' ∧
      (ds ≠ [] → 1 ≤ r.width → 1 ≤ r.length → 1 ≤ r.height →
        |e'.positionOf.x| ≤ r.width / 2 - 0.1 ∧
        0 ≤ e'.positionOf.y ∧ e'.positionOf.y ≤ r.height - 0.1 ∧
        |e'.positionOf.z| ≤ r.length / 2 - 0.1) := by
  induction ds with
  | nil =>
    intro s t e r ht hnr he hr
    exact ⟨ht, hr, e, he, fun hne => absurd rfl hne⟩
  | cons d ds ih =>
    intro s t e r ht hnr he hr
    have hstep := move_step s t e d.x d.y d.z ht hnr he
    have hinv := setTargetEntity_invs s t e
      (fun x => x.setPosition (clampToRoom s.room
        ⟨x.positionOf.x + d.x, x.positionOf.y + d.y, x.positionOf.z + d.z⟩)) hnr he
      (fun d0 => ⟨_, rfl⟩) (fun w0 => ⟨_, rfl⟩) (fun f0 => ⟨_, rfl⟩)
    have happ : applyMoves s (d :: ds) = applyMoves (move_selected_object s d.x d.y d.z).2 ds := rfl
    have hsel1 : (move_selected_object s d.x d.y d.z).2.selected = some t := by
      rw [hstep, save_state_selected, hinv.1, ht]
    have hroom1 : (move_selected_object s d.x d.y d.z).2.room = some r := by
      rw [hstep, save_state_room, hinv.2.1, hr]
    have htar1 : (move_selected_object s d.x d.y d.z).2.targetEntity t =
        some (e.setPosition (clampToRoom s.room
          ⟨e.positionOf.x + d.x, e.positionOf.y + d.y, e.positionOf.z + d.z⟩)) := by
      rw [hstep, save_state_targetEntity]
      exact hinv.2.2
    rw [happ]
    by_cases hds : ds = []
    · subst hds
      refine ⟨hsel1, hroom1, _, htar1, fun _ hw hl hh => ?_⟩
      rw [Entity.positionOf_setPosition, hr]
      exact clampToRoom_bounds r _ hw hl hh
    · obtain ⟨hsel, hroom, e', htar, hbnd⟩ :=
        ih (move_selected_object s d.x d.y d.z).2 t _ r hsel1 hnr htar1 hroom1
      exact ⟨hsel, hroom, e', htar, fun _ => hbnd hds⟩

/-- Claim C4: after any nonempty sequence of `move_selected_object` calls on a selected non-room entity in a scene with a room (dimensions at the constructor floor of one metre or above), the selection survives and the selected entity's position satisfies the clamp bounds: the absolute x at most width/2 − 0.1, y within [0, height − 0.1], the absolute z at most length/2 − 0.1. -/
theorem c4_statement (s : Scene) (t : Target) (e : Entity) (r : Room) (ds : List Vec3)
    (ht : s.selected = some t) (hnr : t ≠ Target.room) (he : s.targetEntity t = some e)
    (hr : s.room = some r) (hw : 1 ≤ r.width) (hl : 1 ≤ r.length) (hh : 1 ≤ r.height)
    (hne : ds ≠ []) :
    ∃ e', (applyMoves s ds).selectedEntity = some e' ∧
      |e'.positionOf.x| ≤ r.width / 2 - 0.1 ∧
      0 ≤ e'.positionOf.y ∧ e'.positionOf.y ≤ r.height - 0.1 ∧
      |e'.positionOf.z| ≤ r.length / 2 - 0.1 := by
  obtain ⟨hsel, hroom, e', htar, hbnd⟩ := move_chain ds s t e r ht hnr he hr
  refine ⟨e', ?_, hbnd hne hw hl hh⟩
  unfold Scene.selectedEntity
  rw [hsel]
  simpa using htar

theorem c4_witness_test :
    ∃ e', (applyMoves demoSelScene [⟨100, -100, 100⟩]).selectedEntity = some e' ∧
      |e'.positionOf.x| ≤ (Room.make "rid" "Demo Room" "bedroom" 5 6 2.5 none none).width / 2 - 0.1 ∧
      0 ≤ e'.positionOf.y ∧
      e'.positionOf.y ≤ (Room.make "rid" "Demo Room" "bedroom" 5 6 2.5 none none).height - 0.1 ∧
      |e'.positionOf.z| ≤ (Room.make "rid" "Demo Room" "bedroom" 5 6 2.5 none none).length / 2 - 0.1 :=
  c4_statement demoSelScene (Target.door 0) (Entity.door demoDoorA)
    (Room.make "rid" "Demo Room" "bedroom" 5 6 2.5 none none) [⟨100, -100, 100⟩]
    rfl (by decide) rfl rfl (le_max_left 1 5) (le_max_left 1 6) (le_max_left 1 2.5) (by decide)

/-- Claim C5: after any nonempty sequence of `rotate_selected_object` calls on a selected non-room entity, each component of the selected entity's rotation equals the accumulated sum taken `pymod` 360 and lies in [0, 360). -/
theorem c5_statement (s : Scene) (t : Target) (e : Entity) (ds : List Vec3)
    (ht : s.selected = some t) (hnr : t ≠ Target.room) (he : s.targetEntity t = some e)
    (hne : ds ≠ []) :
    ∃ e', (applyRotates s ds).selectedEntity = some e' ∧
      e'.rotationOf = ⟨pymod (e.rotationOf.x + (ds.map Vec3.x).sum) 360,
                       pymod (e.rotationOf.y + (ds.map Vec3.y).sum) 360,
                       pymod (e.rotationOf.z + (ds.map Vec3.z).sum) 360⟩ ∧
      0 ≤ e'.rotationOf.x ∧ e'.rotationOf.x < 360 ∧
      0 ≤ e'.rotationOf.y ∧ e'.rotationOf.y < 360 ∧
      0 ≤ e'.rotationOf.z ∧ e'.rotationOf.z < 360 := by
  obtain ⟨hsel, htar⟩ := rotate_chain ds s t e ht hnr he hne
  have h360 : (0 : ℚ) < 360 := by norm_num
  refine ⟨e.setRotation ⟨pymod (e.rotationOf.x + (ds.map Vec3.x).sum) 360,
    pymod (e.rotationOf.y + (ds.map Vec3.y).sum) 360,
    pymod (e.rotationOf.z + (ds.map Vec3.z).sum) 360⟩, ?_, ?_⟩
  · unfold Scene.selectedEntity
    rw [hsel]
    simpa using htar
  · rw [Entity.rotationOf_setRotation]
    exact ⟨rfl, pymod_nonneg _ _ h360, pymod_lt _ _ h360, pymod_nonneg _ _ h360,
      pymod_lt _ _ h360, pymod_nonneg _ _ h360, pymod_lt _ _ h360⟩

theorem c5_witness_test :
    ∃ e', (applyRotates demoSelScene [⟨100, -100, 725⟩]).selectedEntity = some e' ∧
      e'.rotationOf = ⟨pymod ((Entity.door demoDoorA).rotationOf.x + ([(⟨100, -100, 725⟩ : Vec3)].map Vec3.x).sum) 360,
                       pymod ((Entity.door demoDoorA).rotationOf.y + ([(⟨100, -100, 725⟩ : Vec3)].map Vec3.y).sum) 360,
                       pymod ((Entity.door demoDoorA).rotationOf.z + ([(⟨100, -100, 725⟩ : Vec3)].map Vec3.z).sum) 360⟩ ∧
      0 ≤ e'.rotationOf.x ∧ e'.rotationOf.x < 360 ∧
      0 ≤ e'.rotationOf.y ∧ e'.rotationOf.y < 360 ∧
      0 ≤ e'.rotationOf.z ∧ e'.rotationOf.z < 360 :=
  c5_statement demoSelScene (Target.door 0) (Entity.door demoDoorA) [⟨100, -100, 725⟩]
    rfl (by decide) rfl (by decide)

/-- `set_room_color` acts on the room reference exactly as
`roomColorUpdate`. -/
theorem set_room_color_room (s : Scene) (r : Room) (c : String) (o : ℚ) (comp : Component)
    (hr : s.room = some r) :
    (set_room_color s c o comp).room = some (roomColorUpdate r (hex_to_rgb_str c) o comp) := by
  unfold set_room_color
  rw [hr]
  cases comp <;> simp [Scene.setRoomValue, roomColorUpdate, save_state_room, hr]

/-- Claim C6: `set_room_color` on `north_wall` back-fills the shared `wall_color` default — so every other wall reads the new color through its fallback getter — exactly when south/east/west were never individually set; once `south_wall` is also explicitly set, the two walls diverge and no further individual-wall set touches the shared default. -/
theorem c6_statement (s : Scene) (r : Room) (c1 c2 : String) (hr : s.room = some r) :
    ((r.south_wall_color = none ∧ r.east_wall_color = none ∧ r.west_wall_color = none) →
      ∃ r1, (set_room_color s c1 1 Component.north_wall).room = some r1 ∧
        r1.wall_color = hex_to_rgb_str c1 ∧
        r1.get_south_wall_color = hex_to_rgb_str c1 ∧
        r1.get_east_wall_color = hex_to_rgb_str c1 ∧
        r1.get_west_wall_color = hex_to_rgb_str c1 ∧
        r1.south_wall_color = none ∧ r1.east_wall_color = none ∧ r1.west_wall_color = none) ∧
    (¬ (r.south_wall_color = none ∧ r.east_wall_color = none ∧ r.west_wall_color = none) →
      ∃ r1, (set_room_color s c1 1 Component.north_wall).room = some r1 ∧
        r1.wall_color = r.wall_color) ∧
    ((r.north_wall_color = none ∧ r.south_wall_color = none ∧ r.east_wall_color = none ∧
        r.west_wall_color = none) →
      ∃ r2, (set_room_color (set_room_color s c1 1 Component.north_wall) c2 1
          Component.south_wall).room = some r2 ∧
        r2.get_north_wall_color = hex_to_rgb_str c1 ∧
        r2.get_south_wall_color = hex_to_rgb_str c2 ∧
        r2.wall_color = hex_to_rgb_str c1 ∧
        (∀ (c3 : String) (comp : Component),
          comp = Component.north_wall ∨ comp = Component.south_wall ∨
          comp = Component.east_wall ∨ comp = Component.west_wall →
          ∃ r3, (set_room_color (set_room_color (set_room_color s c1 1 Component.north_wall)
              c2 1 Component.south_wall) c3 1 comp).room = some r3 ∧
            r3.wall_color = r2.wall_color)) := by
  refine ⟨?_, ?_, ?_⟩
  · intro ⟨hs, he, hw⟩
    refine ⟨_, set_room_color_room s r c1 1 Component.north_wall hr, ?_⟩
    simp [roomColorUpdate, hs, he, hw, Room.get_south_wall_color, Room.get_east_wall_color,
      Room.get_west_wall_color]
  · intro hother
    refine ⟨_, set_room_color_room s r c1 1 Component.north_wall hr, ?_⟩
    simp only [roomColorUpdate]
    rw [if_neg hother]
  · intro ⟨hn, hs, he, hw⟩
    have h1 := set_room_color_room s r c1 1 Component.north_wall hr
    set rA := roomColorUpdate r (hex_to_rgb_str c1) 1 Component.north_wall with hrA
    have hrA_fields : rA.north_wall_color = some (hex_to_rgb_str c1) ∧
        rA.south_wall_color = none ∧ rA.east_wall_color = none ∧ rA.west_wall_color = none ∧
        rA.wall_color = hex_to_rgb_str c1 := by
      rw [hrA]
      simp [roomColorUpdate, hs, he, hw]
    have h2 := set_room_color_room _ rA c2 1 Component.south_wall h1
    set rB := roomColorUpdate rA (hex_to_rgb_str c2) 1 Component.south_wall with hrB
    have hne : ¬ (rA.north_wall_color = none ∧ rA.east_wall_color = none ∧
        rA.west_wall_color = none) := by
      rw [hrA_fields.1]
      simp
    have hrB_fields : rB.north_wall_color = some (hex_to_rgb_str c1) ∧
        rB.south_wall_color = some (hex_to_rgb_str c2) ∧
        rB.east_wall_color = none ∧ rB.west_wall_color = none ∧
        rB.wall_color = hex_to_rgb_str c1 := by
      rw [hrB]
      simp only [roomColorUpdate]
      rw [if_neg hne]
      exact ⟨hrA_fields.1, rfl, hrA_fields.2.2.1, hrA_fields.2.2.2.1, hrA_fields.2.2.2.2⟩
    refine ⟨rB, h2, ?_, ?_, hrB_fields.2.2.2.2, ?_⟩
    · unfold Room.get_north_wall_color
      rw [hrB_fields.1]
      rfl
    · unfold Room.get_south_wall_color
      rw [hrB_fields.2.1]
      rfl
    · intro c3 comp hcomp
      have h3 := set_room_color_room _ rB c3 1 comp h2
      refine ⟨_, h3, ?_⟩
      rcases hcomp with h | h | h | h <;> subst h <;> simp only [roomColorUpdate]
      · rw [if_neg (by rw [hrB_fields.2.1]; simp)]
      · rw [if_neg (by rw [hrB_fields.1]; simp)]
      · rw [if_neg (by rw [hrB_fields.1]; simp)]
      · rw [if_neg (by rw [hrB_fields.1]; simp)]

theorem removeTargetFromList_core (s : Scene) (t : Target) :
    (removeTargetFromList s t).object_map = s.object_map ∧
    (removeTargetFromList s t).selected = s.selected ∧
    (removeTargetFromList s t).room = s.room ∧
    (removeTargetFromList s t).history = s.history ∧
    (removeTargetFromList s t).history_index = s.history_index := by
  cases t <;> exact ⟨rfl, rfl, rfl, rfl, rfl⟩

theorem removeTarget_save_lists (s : Scene) (t : Target) (d : String) :
    (removeTargetFromList (save_state s d) t).doors = (removeTargetFromList s t).doors ∧
    (removeTargetFromList (save_state s d) t).windows = (removeTargetFromList s t).windows ∧
    (removeTargetFromList (save_state s d) t).furniture = (removeTargetFromList s t).furniture := by
  cases t <;>
    simp [removeTargetFromList, save_state_doors, save_state_windows, save_state_furniture]

/-- Claim C8, corrected: `delete_selected_object` is a pure no-op returning false on an empty or room selection; on a non-room selection it always snapshots and removes the entity from its typed collection, but it deletes the index entry and clears the selection ONLY when the entity's id is a key of the index — otherwise it returns false with the snapshot and the collection removal already performed. -/
theorem c8_statement :
    (∀ s : Scene, (s.selected = none ∨ s.selected = some Target.room) →
      delete_selected_object s = (false, s)) ∧
    (∀ (s : Scene) (t : Target) (e : Entity),
      s.selected = some t → t ≠ Target.room → s.targetEntity t = some e →
      (delete_selected_object s).2.history = (save_state s ("Delete " ++ e.nameOf)).history ∧
      (delete_selected_object s).2.room = s.room ∧
      (delete_selected_object s).2.doors = (removeTargetFromList s t).doors ∧
      (delete_selected_object s).2.windows = (removeTargetFromList s t).windows ∧
      (delete_selected_object s).2.furniture = (removeTargetFromList s t).furniture ∧
      (if (assocLookup s.object_map e.idOf).isSome then
        (delete_selected_object s).1 = true ∧
        (delete_selected_object s).2.selected = none ∧
        (delete_selected_object s).2.object_map = assocErase s.object_map e.idOf
      else
        (delete_selected_object s).1 = false ∧
        (delete_selected_object s).2.selected = s.selected ∧
        (delete_selected_object s).2.object_map = s.object_map)) := by
  constructor
  · intro s h
    rcases h with h | h <;> unfold delete_selected_object <;> rw [h] <;> simp
  · intro s t e ht hnr he
    have hdel : delete_selected_object s =
        (let s1 := save_state s ("Delete " ++ e.nameOf)
         let s2 := removeTargetFromList s1 t
         if (assocLookup s2.object_map e.idOf).isSome then
           (true, { s2 with object_map := assocErase s2.object_map e.idOf, selected := none })
         else (false, s2)) := by
      unfold delete_selected_object
      rw [ht]
      simp [hnr, he]
    have hmap2 : (removeTargetFromList (save_state s ("Delete " ++ e.nameOf)) t).object_map
        = s.object_map := by
      rw [(removeTargetFromList_core _ t).1, save_state_map]
    have hsel2 : (removeTargetFromList (save_state s ("Delete " ++ e.nameOf)) t).selected
        = s.selected := by
      rw [(removeTargetFromList_core _ t).2.1, save_state_selected]
    have hroom2 : (removeTargetFromList (save_state s ("Delete " ++ e.nameOf)) t).room
        = s.room := by
      rw [(removeTargetFromList_core _ t).2.2.1, save_state_room]
    have hhist2 : (removeTargetFromList (save_state s ("Delete " ++ e.nameOf)) t).history
        = (save_state s ("Delete " ++ e.nameOf)).history :=
      (removeTargetFromList_core _ t).2.2.2.1
    rw [hdel]
    dsimp only
    rw [hmap2]
    by_cases hlk : (assocLookup s.object_map e.idOf).isSome
    · rw [if_pos hlk, if_pos hlk]
      refine ⟨hhist2, hroom2, ?_, ?_, ?_, rfl, rfl, rfl⟩
      · exact (removeTarget_save_lists s t _).1
      · exact (removeTarget_save_lists s t _).2.1
      · exact (removeTarget_save_lists s t _).2.2
    · rw [if_neg hlk, if_neg hlk]
      refine ⟨hhist2, hroom2, ?_, ?_, ?_, rfl, hsel2, hmap2⟩
      · exact (removeTarget_save_lists s t _).1
      · exact (removeTarget_save_lists s t _).2.1
      · exact (removeTarget_save_lists s t _).2.2

/-! Hex conversion lemmas -/

theorem hexVal_facts (c : Char) (v : ℕ) (h : hexVal c = some v) :
    v ≤ 15 ∧ isPyWs c = false ∧ c.toNat ≠ 43 ∧ c.toNat ≠ 45 ∧ c.toNat ≠ 95 ∧
    c.toNat ≠ 120 ∧ c.toNat ≠ 88 := by
  unfold hexVal at h
  unfold isPyWs
  split_ifs at h with h1 h2 h3
  all_goals
    injection h with hv
    subst hv
    refine ⟨by omega, ?_, by omega, by omega, by omega, by omega, by omega⟩
    simp only [Bool.or_eq_false_iff, decide_eq_false_iff_not]
    omega

theorem hexDigitsRest_single (acc : ℕ) (c : Char) (v : ℕ) (h : hexVal c = some v) :
    hexDigitsRest acc [c] = some (16 * acc + v) := by
  obtain ⟨-, -, -, -, h95, -, -⟩ := hexVal_facts c v h
  unfold hexDigitsRest
  rw [if_neg h95, h]
  rfl

theorem pyIntHex_pair (c1 c2 : Char) (v1 v2 : ℕ)
    (h1 : hexVal c1 = some v1) (h2 : hexVal c2 = some v2) :
    pyIntHex ⟨[c1, c2]⟩ = some ((16 * v1 + v2 : ℕ) : ℤ) := by
  obtain ⟨-, hw1, hp1, hm1, -, -, -⟩ := hexVal_facts c1 v1 h1
  obtain ⟨-, hw2, -, -, -, hx2, hX2⟩ := hexVal_facts c2 v2 h2
  unfold pyIntHex
  dsimp only
  have hstrip : List.dropWhile isPyWs
      ((List.dropWhile isPyWs ({ data := [c1, c2] } : String).data).reverse) = [c2, c1] := by
    show List.dropWhile isPyWs ((List.dropWhile isPyWs [c1, c2]).reverse) = [c2, c1]
    rw [List.dropWhile_cons_of_neg (by rw [hw1]; exact Bool.false_ne_true)]
    show List.dropWhile isPyWs [c2, c1] = [c2, c1]
    rw [List.dropWhile_cons_of_neg (by rw [hw2]; exact Bool.false_ne_true)]
  rw [hstrip]
  show (pyHexCore (pySign [c1, c2]).2).map (fun n => (pySign [c1, c2]).1 * (n : ℤ))
      = some ((16 * v1 + v2 : ℕ) : ℤ)
  have hsign : pySign [c1, c2] = (1, [c1, c2]) := by
    unfold pySign
    dsimp only
    rw [if_neg hp1, if_neg hm1]
  rw [hsign]
  have hcore : pyHexCore [c1, c2] = some (16 * v1 + v2) := by
    unfold pyHexCore
    dsimp only
    rw [if_neg (by rintro ⟨h48, hx⟩; rcases hx with hx | hx; exact hx2 hx; exact hX2 hx)]
    unfold hexDigitsParse
    dsimp only
    rw [h1]
    simp only [Option.some_bind]
    exact hexDigitsRest_single v1 c2 v2 h2
  rw [hcore]
  simp

theorem hex_to_rgb_six (s : String) (c1 c2 c3 c4 c5 c6 : Char) (r g b : ℤ)
    (hdata : (lstripHash s).data = [c1, c2, c3, c4, c5, c6])
    (hr : pyIntHex ⟨[c1, c2]⟩ = some r) (hg : pyIntHex ⟨[c3, c4]⟩ = some g)
    (hb : pyIntHex ⟨[c5, c6]⟩ = some b) :
    hex_to_rgb (PyColor.str s) = some [(r : ℚ) / 255, (g : ℚ) / 255, (b : ℚ) / 255] := by
  unfold hex_to_rgb
  dsimp only
  rw [hdata]
  dsimp only
  rw [hr, hg, hb]

theorem hex_to_rgb_three (s : String) (c1 c2 c3 : Char) (r g b : ℤ)
    (hdata : (lstripHash s).data = [c1, c2, c3])
    (hr : pyIntHex ⟨[c1, c1]⟩ = some r) (hg : pyIntHex ⟨[c2, c2]⟩ = some g)
    (hb : pyIntHex ⟨[c3, c3]⟩ = some b) :
    hex_to_rgb (PyColor.str s) = some [(r : ℚ) / 255, (g : ℚ) / 255, (b : ℚ) / 255] := by
  unfold hex_to_rgb
  dsimp only
  rw [hdata]
  dsimp only
  rw [hr, hg, hb]

theorem div255_bounds (n : ℕ) (h : n ≤ 255) :
    0 ≤ ((n : ℤ) : ℚ) / 255 ∧ ((n : ℤ) : ℚ) / 255 ≤ 1 := by
  constructor
  · positivity
  · rw [div_le_one (by norm_num)]
    push_cast
    exact_mod_cast h

theorem pyIntHex_double_none (c : Char) (h : hexVal c = none) : pyIntHex ⟨[c, c]⟩ = none := by
  unfold pyIntHex
  dsimp only
  by_cases hws : isPyWs c = true
  · have hstrip0 : List.dropWhile isPyWs (({ data := [c, c] } : String).data) = [] := by
      show List.dropWhile isPyWs [c, c] = []
      rw [List.dropWhile_cons_of_pos hws, List.dropWhile_cons_of_pos hws]
      rfl
    rw [hstrip0]
    rfl
  · replace hws : isPyWs c = false := by rwa [Bool.not_eq_true] at hws
    have hstrip : List.dropWhile isPyWs
        ((List.dropWhile isPyWs ({ data := [c, c] } : String).data).reverse) = [c, c] := by
      show List.dropWhile isPyWs ((List.dropWhile isPyWs [c, c]).reverse) = [c, c]
      rw [List.dropWhile_cons_of_neg (by rw [hws]; exact Bool.false_ne_true)]
      show List.dropWhile isPyWs [c, c] = [c, c]
      rw [List.dropWhile_cons_of_neg (by rw [hws]; exact Bool.false_ne_true)]
    rw [hstrip]
    show (pyHexCore (pySign [c, c]).2).map (fun n => (pySign [c, c]).1 * (n : ℤ)) = none
    by_cases hplus : c.toNat = 43
    · have hsign : pySign [c, c] = (1, [c]) := by
        unfold pySign
        dsimp only
        rw [if_pos hplus]
      rw [hsign]
      have hco : pyHexCore [c] = none := by
        unfold pyHexCore hexDigitsParse
        dsimp only
        rw [h]
        rfl
      rw [hco]
      rfl
    · by_cases hminus : c.toNat = 45
      · have hsign : pySign [c, c] = (-1, [c]) := by
          unfold pySign
          dsimp only
          rw [if_neg hplus, if_pos hminus]
        rw [hsign]
        have hco : pyHexCore [c] = none := by
          unfold pyHexCore hexDigitsParse
          dsimp only
          rw [h]
          rfl
        rw [hco]
        rfl
      · have hsign : pySign [c, c] = (1, [c, c]) := by
          unfold pySign
          dsimp only
          rw [if_neg hplus, if_neg hminus]
        rw [hsign]
        have hco : pyHexCore [c, c] = none := by
          unfold pyHexCore
          dsimp only
          rw [if_neg (by rintro ⟨h48, hx⟩; rcases hx with hx | hx <;> omega)]
          unfold hexDigitsParse
          dsimp only
          rw [h]
          rfl
        rw [hco]
        rfl

theorem hex_to_rgb_len_white (s : String)
    (h3 : (lstripHash s).length ≠ 3) (h6 : (lstripHash s).length ≠ 6) :
    hex_to_rgb (PyColor.str s) = some [1, 1, 1] := by
  have h3' : (lstripHash s).data.length ≠ 3 := h3
  have h6' : (lstripHash s).data.length ≠ 6 := h6
  unfold hex_to_rgb
  dsimp only
  generalize hgen : (lstripHash s).data = l at h3' h6' ⊢
  rcases l with _ | ⟨a, _ | ⟨b, _ | ⟨c, _ | ⟨d, _ | ⟨e, _ | ⟨f, _ | ⟨g, rest⟩⟩⟩⟩⟩⟩⟩
  all_goals first
    | rfl
    | (exfalso; simp at h3' h6')

theorem hex_to_rgb_six_fail (s : String) (c1 c2 c3 c4 c5 c6 : Char)
    (hdata : (lstripHash s).data = [c1, c2, c3, c4, c5, c6])
    (hfail : pyIntHex ⟨[c1, c2]⟩ = none ∨ pyIntHex ⟨[c3, c4]⟩ = none ∨
      pyIntHex ⟨[c5, c6]⟩ = none) :
    hex_to_rgb (PyColor.str s) = some [1, 1, 1] := by
  unfold hex_to_rgb
  dsimp only
  rw [hdata]
  dsimp only
  rcases hfail with hf | hf | hf
  · rw [hf]
  · cases hA : pyIntHex ⟨[c1, c2]⟩ <;> rw [hf]
  · cases hA : pyIntHex ⟨[c1, c2]⟩ <;> cases hB : pyIntHex ⟨[c3, c4]⟩ <;> rw [hf]

theorem hex_to_rgb_three_fail (s : String) (c1 c2 c3 : Char)
    (hdata : (lstripHash s).data = [c1, c2, c3])
    (hfail : hexVal c1 = none ∨ hexVal c2 = none ∨ hexVal c3 = none) :
    hex_to_rgb (PyColor.str s) = some [1, 1, 1] := by
  unfold hex_to_rgb
  dsimp only
  rw [hdata]
  dsimp only
  rcases hfail with hf | hf | hf
  · rw [pyIntHex_double_none c1 hf]
  · cases hA : pyIntHex ⟨[c1, c1]⟩ <;> rw [pyIntHex_double_none c2 hf]
  · cases hA : pyIntHex ⟨[c1, c1]⟩ <;> cases hB : pyIntHex ⟨[c2, c2]⟩ <;>
      rw [pyIntHex_double_none c3 hf]

/-- Claim C7, corrected: every string of 6 (or 3) hex digits after `#`-stripping maps to three rationals in [0, 1], `"#FF0000"`, `"#00F"` and `"notacolor"` behave as claimed, and lists of length at least 3 pass through unchanged; but a malformed string falls back to white only when Python `int(s, 16)` fails — strings such as `"+F0000"` parse through the sign handling of `int` and yield a non-white color (see the counterexample). -/
theorem c7_amended :
    (∀ s : String, (lstripHash s).length = 6 → allHexDigits (lstripHash s) = true →
      ∃ a b c : ℚ, hex_to_rgb (PyColor.str s) = some [a, b, c] ∧
        0 ≤ a ∧ a ≤ 1 ∧ 0 ≤ b ∧ b ≤ 1 ∧ 0 ≤ c ∧ c ≤ 1) ∧
    (∀ s : String, (lstripHash s).length = 3 → allHexDigits (lstripHash s) = true →
      ∃ a b c : ℚ, hex_to_rgb (PyColor.str s) = some [a, b, c] ∧
        0 ≤ a ∧ a ≤ 1 ∧ 0 ≤ b ∧ b ≤ 1 ∧ 0 ≤ c ∧ c ≤ 1) ∧
    hex_to_rgb (PyColor.str "#FF0000") = some [1, 0, 0] ∧
    hex_to_rgb (PyColor.str "#00F") = some [0, 0, 1] ∧
    hex_to_rgb (PyColor.str "notacolor") = some [1, 1, 1] ∧
    (∀ l : List ℚ, 3 ≤ l.length → hex_to_rgb (PyColor.rgb l) = some l) ∧
    (∀ s : String, (lstripHash s).length ≠ 3 → (lstripHash s).length ≠ 6 →
      hex_to_rgb (PyColor.str s) = some [1, 1, 1]) ∧
    (∀ (s : String) (c1 c2 c3 : Char), (lstripHash s).data = [c1, c2, c3] →
      (hexVal c1 = none ∨ hexVal c2 = none ∨ hexVal c3 = none) →
      hex_to_rgb (PyColor.str s) = some [1, 1, 1]) ∧
    (∀ (s : String) (c1 c2 c3 c4 c5 c6 : Char),
      (lstripHash s).data = [c1, c2, c3, c4, c5, c6] →
      (pyIntHex ⟨[c1, c2]⟩ = none ∨ pyIntHex ⟨[c3, c4]⟩ = none ∨ pyIntHex ⟨[c5, c6]⟩ = none) →
      hex_to_rgb (PyColor.str s) = some [1, 1, 1]) := by
  refine ⟨?_, ?_, ?_, ?_, ?_, ?_, hex_to_rgb_len_white, hex_to_rgb_three_fail,
    hex_to_rgb_six_fail⟩
  · intro s hlen hall
    have hdl : (lstripHash s).data.length = 6 := hlen
    rcases hdd : (lstripHash s).data with _ | ⟨a, _ | ⟨b, _ | ⟨c0, _ | ⟨d, _ | ⟨e, _ | ⟨f, rest⟩⟩⟩⟩⟩⟩ <;>
      rw [hdd] at hdl <;> simp at hdl
    subst hdl
    unfold allHexDigits at hall
    rw [hdd] at hall
    simp only [List.all_cons, List.all_nil, Bool.and_true, Bool.and_eq_true,
      Option.isSome_iff_exists] at hall
    obtain ⟨⟨v1, hv1⟩, ⟨v2, hv2⟩, ⟨v3, hv3⟩, ⟨v4, hv4⟩, ⟨v5, hv5⟩, ⟨v6, hv6⟩⟩ := hall
    have p1 := pyIntHex_pair a b v1 v2 hv1 hv2
    have p2 := pyIntHex_pair c0 d v3 v4 hv3 hv4
    have p3 := pyIntHex_pair e f v5 v6 hv5 hv6
    refine ⟨_, _, _, hex_to_rgb_six s a b c0 d e f _ _ _ hdd p1 p2 p3, ?_, ?_, ?_, ?_, ?_, ?_⟩
    · exact (div255_bounds _ (by have := (hexVal_facts a v1 hv1).1; have := (hexVal_facts b v2 hv2).1; omega)).1
    · exact (div255_bounds _ (by have := (hexVal_facts a v1 hv1).1; have := (hexVal_facts b v2 hv2).1; omega)).2
    · exact (div255_bounds _ (by have := (hexVal_facts c0 v3 hv3).1; have := (hexVal_facts d v4 hv4).1; omega)).1
    · exact (div255_bounds _ (by have := (hexVal_facts c0 v3 hv3).1; have := (hexVal_facts d v4 hv4).1; omega)).2
    · exact (div255_bounds _ (by have := (hexVal_facts e v5 hv5).1; have := (hexVal_facts f v6 hv6).1; omega)).1
    · exact (div255_bounds _ (by have := (hexVal_facts e v5 hv5).1; have := (hexVal_facts f v6 hv6).1; omega)).2
  · intro s hlen hall
    have hdl : (lstripHash s).data.length = 3 := hlen
    rcases hdd : (lstripHash s).data with _ | ⟨a, _ | ⟨b, _ | ⟨c0, rest⟩⟩⟩ <;>
      rw [hdd] at hdl <;> simp at hdl
    subst hdl
    unfold allHexDigits at hall
    rw [hdd] at hall
    simp only [List.all_cons, List.all_nil, Bool.and_true, Bool.and_eq_true,
      Option.isSome_iff_exists] at hall
    obtain ⟨⟨v1, hv1⟩, ⟨v2, hv2⟩, ⟨v3, hv3⟩⟩ := hall
    have p1 := pyIntHex_pair a a v1 v1 hv1 hv1
    have p2 := pyIntHex_pair b b v2 v2 hv2 hv2
    have p3 := pyIntHex_pair c0 c0 v3 v3 hv3 hv3
    refine ⟨_, _, _, hex_to_rgb_three s a b c0 _ _ _ hdd p1 p2 p3, ?_, ?_, ?_, ?_, ?_, ?_⟩
    · exact (div255_bounds _ (by have := (hexVal_facts a v1 hv1).1; omega)).1
    · exact (div255_bounds _ (by have := (hexVal_facts a v1 hv1).1; omega)).2
    · exact (div255_bounds _ (by have := (hexVal_facts b v2 hv2).1; omega)).1
    · exact (div255_bounds _ (by have := (hexVal_facts b v2 hv2).1; omega)).2
    · exact (div255_bounds _ (by have := (hexVal_facts c0 v3 hv3).1; omega)).1
    · exact (div255_bounds _ (by have := (hexVal_facts c0 v3 hv3).1; omega)).2
  · rw [hex_to_rgb_six "#FF0000" 'F' 'F' '0' '0' '0' '0' 255 0 0 (by decide)
      (by decide) (by decide) (by decide)]
    norm_num
  · rw [hex_to_rgb_three "#00F" '0' '0' 'F' 0 0 255 (by decide)
      (by decide) (by decide) (by decide)]
    norm_num
  · exact hex_to_rgb_len_white "notacolor" (by decide) (by decide)
  · intro l hl
    unfold hex_to_rgb
    dsimp only
    rw [if_pos hl]

/-! Serialization round-trip lemmas -/

theorem textureOut_id (t : Option String) (h : t ≠ some "") : textureOut t = t := by
  cases t with
  | none => rfl
  | some s =>
    unfold textureOut
    dsimp only
    rw [if_neg (fun hs => h (by rw [hs]))]

theorem door_roundtrip (d : Door) (h : DoorInv d) : Door.from_dict d.to_dict = canonDoor d := by
  obtain ⟨hw, hh, ht, ha0, ha90, ho, htex⟩ := h
  unfold Door.from_dict Door.to_dict Door.make BaseFields.make Door.set_open_angle canonDoor
  dsimp only
  rw [textureOut_id d.texture htex]
  cases htx : d.texture <;> dsimp only <;> congr 1
  all_goals first
    | rfl
    | exact max_eq_right hw
    | exact max_eq_right hh
    | exact max_eq_right ht
    | (rw [min_eq_right ha90, max_eq_right ha0]; try exact ho.symm)

theorem furniture_roundtrip (f : Furniture) (h : FurnInv f) :
    Furniture.from_dict f.to_dict = canonFurn f := by
  obtain ⟨hw, hd, hh, hm, htex⟩ := h
  unfold Furniture.from_dict Furniture.to_dict Furniture.make BaseFields.make canonFurn
  dsimp only
  rw [textureOut_id f.texture htex]
  cases htx : f.texture <;> dsimp only <;> congr 1
  all_goals first
    | rfl
    | exact max_eq_right hw
    | exact max_eq_right hd
    | exact max_eq_right hh
    | rw [if_pos hm]

theorem window_roundtrip (w : Window) (h : WindowInv w) :
    Window.from_dict w.to_dict = canonWindow w := by
  obtain ⟨hw, hh, ht, hg0, hg1, hp0, hp100, ho, htex⟩ := h
  unfold Window.from_dict Window.to_dict Window.make BaseFields.make Window.set_open_percentage
    Window.set_segments Window.set_angle canonWindow
  dsimp only
  rw [textureOut_id w.texture htex]
  cases htx : w.texture <;> dsimp only <;>
    (by_cases hbay : w.window_type = "Bay Window"
     · simp only [hbay, String.reduceEq, reduceIte]
       try dsimp only
       congr 1
       all_goals first
         | rfl
         | exact max_eq_right hw
         | exact max_eq_right hh
         | exact max_eq_right ht
         | rw [min_eq_right hg1, max_eq_right hg0]
         | (rw [min_eq_right hp100, max_eq_right hp0]; try exact ho.symm)
     · by_cases hdbl : w.window_type = "Double Window"
       · simp only [hbay, hdbl, String.reduceEq, reduceIte, ite_true, ite_false]
         try dsimp only
         congr 1
         all_goals first
           | rfl
           | exact max_eq_right hw
           | exact max_eq_right hh
           | exact max_eq_right ht
           | rw [min_eq_right hg1, max_eq_right hg0]
           | (rw [min_eq_right hp100, max_eq_right hp0]; try exact ho.symm)
       · simp only [hbay, hdbl, String.reduceEq, reduceIte, ite_true, ite_false]
         try dsimp only
         congr 1
         all_goals first
           | rfl
           | exact max_eq_right hw
           | exact max_eq_right hh
           | exact max_eq_right ht
           | rw [min_eq_right hg0, max_eq_right hg1]
           | rw [min_eq_right hg1, max_eq_right hg0]
           | (rw [min_eq_right hp100, max_eq_right hp0]; try exact ho.symm))

/-! C2: scene-level serialization round trip -/

theorem Entity.to_dict_isRoomRec (e : Entity) : e.to_dict.isRoomRec = e.isRoom := by
  cases e <;> rfl

theorem entity_roundtrip (e : Entity) (h : entityInv e) (hr : e.isRoom = false) :
    recordEntity e.to_dict = canonEntity e := by
  cases e with
  | room r => simp [Entity.isRoom] at hr
  | door d => exact congrArg Entity.door (door_roundtrip d h)
  | window w => exact congrArg Entity.window (window_roundtrip w h)
  | furn f => exact congrArg Entity.furn (furniture_roundtrip f h)

theorem loadRecord_fields (s : Scene) (k : String) (r : ObjectRecord) (h : r.isRoomRec = false) :
    (loadRecord s k r).object_map = assocSet s.object_map k (recordEntity r) ∧
    (loadRecord s k r).room = s.room ∧
    (loadRecord s k r).uuid_seed = s.uuid_seed := by
  cases r with
  | room rec => simp [ObjectRecord.isRoomRec] at h
  | door rec => exact ⟨rfl, rfl, rfl⟩
  | window rec => exact ⟨rfl, rfl, rfl⟩
  | furn rec => exact ⟨rfl, rfl, rfl⟩

theorem loadFold (rs : List (String × ObjectRecord)) : ∀ (s0 : Scene),
    (∀ p ∈ rs, p.2.isRoomRec = false) →
    (rs.foldl (fun s p => loadRecord s p.1 p.2) s0).object_map
        = rs.foldl (fun m p => assocSet m p.1 (recordEntity p.2)) s0.object_map ∧
    (rs.foldl (fun s p => loadRecord s p.1 p.2) s0).room = s0.room ∧
    (rs.foldl (fun s p => loadRecord s p.1 p.2) s0).uuid_seed = s0.uuid_seed := by
  induction rs with
  | nil => intro s0 _; exact ⟨rfl, rfl, rfl⟩
  | cons p ps ih =>
    intro s0 h
    have hp := h p (List.mem_cons_self p ps)
    have hrest : ∀ q ∈ ps, q.2.isRoomRec = false := fun q hq => h q (List.mem_cons_of_mem p hq)
    have hf := loadRecord_fields s0 p.1 p.2 hp
    obtain ⟨hm, hr, hu⟩ := ih (loadRecord s0 p.1 p.2) hrest
    simp only [List.foldl_cons]
    exact ⟨by rw [hm, hf.1], by rw [hr, hf.2.1], by rw [hu, hf.2.2]⟩

theorem assocSet_append (m : List (String × Entity)) (k : String) (v : Entity)
    (h : k ∉ m.map Prod.fst) : assocSet m k v = m ++ [(k, v)] := by
  induction m with
  | nil => rfl
  | cons p rest ih =>
    simp only [List.map_cons, List.mem_cons, not_or] at h
    unfold assocSet
    rw [if_neg (fun he => h.1 he.symm), ih h.2]
    rfl

theorem foldl_assocSet_fresh (rs : List (String × ObjectRecord)) : ∀ (m0 : List (String × Entity)),
    (rs.map Prod.fst).Nodup → (∀ k ∈ rs.map Prod.fst, k ∉ m0.map Prod.fst) →
    rs.foldl (fun m p => assocSet m p.1 (recordEntity p.2)) m0
      = m0 ++ rs.map (fun p => (p.1, recordEntity p.2)) := by
  induction rs with
  | nil => intro m0 _ _; simp
  | cons p ps ih =>
    intro m0 hnd hfresh
    simp only [List.map_cons, List.nodup_cons] at hnd
    simp only [List.foldl_cons, List.map_cons]
    have hfresh2 : ∀ k ∈ ps.map Prod.fst,
        k ∉ (m0 ++ [(p.1, recordEntity p.2)]).map Prod.fst := by
      intro k hk
      simp only [List.map_append, List.mem_append, List.map_cons, List.map_nil,
        List.mem_singleton]
      rintro (h1 | h2)
      · exact hfresh k (List.mem_cons_of_mem _ hk) h1
      · exact hnd.1 (h2 ▸ hk)
    rw [assocSet_append m0 p.1 (recordEntity p.2) (hfresh p.1 (List.mem_cons_self _ _)),
        ih (m0 ++ [(p.1, recordEntity p.2)]) hnd.2 hfresh2]
    simp

theorem set_room_eq (s : Scene) (name : String) (w l h : ℚ) (rt : String) :
    ∃ hist idx, set_room s name w l h rt =
      { s with room := some (Room.make ("uuid-" ++ toString s.uuid_seed) name rt w l h
                 (some Vec3.zero) (some Vec3.zero)),
               uuid_seed := s.uuid_seed + 1, history := hist, history_index := idx } := by
  unfold set_room
  cases hsr : s.room <;> dsimp only
  · obtain ⟨h2, i2, e2⟩ := save_state_eq
      { s with room := some (Room.make ("uuid-" ++ toString s.uuid_seed) name rt w l h
                 (some Vec3.zero) (some Vec3.zero)), uuid_seed := s.uuid_seed + 1 }
      "Change [0.8, 0.8, 0.8] color"
    exact ⟨h2, i2, e2⟩
  · obtain ⟨h1, i1, e1⟩ := save_state_eq s ("Change Room to " ++ name)
    rw [e1]
    obtain ⟨h2, i2, e2⟩ := save_state_eq
      { s with history := h1, history_index := i1,
               room := some (Room.make ("uuid-" ++ toString s.uuid_seed) name rt w l h
                 (some Vec3.zero) (some Vec3.zero)), uuid_seed := s.uuid_seed + 1 }
      "Change [0.8, 0.8, 0.8] color"
    exact ⟨h2, i2, e2⟩

theorem clear_scene_eq (s : Scene) :
    ∃ hist idx, clear_scene s =
      { s with doors := [], windows := [], furniture := [], object_map := [], selected := none,
               last_id := 0,
               room := some (Room.make ("uuid-" ++ toString s.uuid_seed) "Empty Room" "bedroom"
                 5 5 2.5 (some Vec3.zero) (some Vec3.zero)),
               uuid_seed := s.uuid_seed + 1, history := hist, history_index := idx } := by
  unfold clear_scene
  dsimp only
  obtain ⟨h1, i1, e1⟩ := save_state_eq s "Clear Scene"
  rw [e1]
  obtain ⟨h2, i2, e2⟩ := set_room_eq
    { s with history := h1, history_index := i1, doors := [], windows := [], furniture := [],
             object_map := [], selected := none, last_id := 0 }
    "Empty Room" 5 5 2.5 "bedroom"
  exact ⟨h2, i2, e2⟩

theorem load_scene_char (s : Scene) (data : List (String × ObjectRecord))
    (hdata : ∀ p ∈ data, p.2.isRoomRec = false)
    (hnd : (data.map Prod.fst).Nodup) :
    (load_scene s data).1 = true ∧
    (load_scene s data).2.object_map = data.map (fun p => (p.1, recordEntity p.2)) ∧
    (load_scene s data).2.room = some (Room.make ("uuid-" ++ toString (s.uuid_seed + 1))
        "Living Room" "bedroom" 5 6 2.5 (some Vec3.zero) (some Vec3.zero)) := by
  obtain ⟨hc, ic, ec⟩ := clear_scene_eq s
  have h2m : ({ clear_scene s with room := none } : Scene).object_map = [] := by
    rw [ec]
  have h2u : ({ clear_scene s with room := none } : Scene).uuid_seed = s.uuid_seed + 1 := by
    rw [ec]
  have hF := loadFold data { clear_scene s with room := none } hdata
  have hFr : (data.foldl (fun s p => loadRecord s p.1 p.2)
      { clear_scene s with room := none }).room = none := by
    rw [hF.2.1]
  have hFu : (data.foldl (fun s p => loadRecord s p.1 p.2)
      { clear_scene s with room := none }).uuid_seed = s.uuid_seed + 1 := by
    rw [hF.2.2]
    exact h2u
  have hFm : (data.foldl (fun s p => loadRecord s p.1 p.2)
      { clear_scene s with room := none }).object_map
      = data.map (fun p => (p.1, recordEntity p.2)) := by
    rw [hF.1, h2m, foldl_assocSet_fresh data [] hnd (by intro k _ hk; simp at hk)]
    simp
  unfold load_scene
  dsimp only
  rw [if_pos hFr]
  obtain ⟨h3, i3, e3⟩ := set_room_eq
    (data.foldl (fun s p => loadRecord s p.1 p.2) { clear_scene s with room := none })
    "Living Room" 5 6 2.5 "bedroom"
  rw [e3]
  refine ⟨rfl, hFm, ?_⟩
  show some (Room.make ("uuid-" ++ toString ((data.foldl (fun s p => loadRecord s p.1 p.2)
      { clear_scene s with room := none }).uuid_seed)) "Living Room" "bedroom" 5 6 2.5
      (some Vec3.zero) (some Vec3.zero)) = _
  rw [hFu]

/-- Claim C2, corrected: `load_scene (save_scene s)` returns true and reproduces every indexed entity up to `canonEntity` (the `is_selected` flag is reset, a window's `segments` and `angle` are recomputed by the property setters), but the room is NOT preserved: it is replaced by a fresh default "Living Room" 5 by 6 by 2.5 room, because `set_room` never enters the room into `object_map` and `save_scene` serializes only `object_map`. -/
theorem c2_amended_statement (s : Scene)
    (hkeys : (s.object_map.map Prod.fst).Nodup)
    (hvals : ∀ p ∈ s.object_map, entityInv p.2 ∧ p.2.isRoom = false) :
    (load_scene s (save_scene s)).1 = true ∧
    (load_scene s (save_scene s)).2.object_map
        = s.object_map.map (fun p => (p.1, canonEntity p.2)) ∧
    (load_scene s (save_scene s)).2.room
        = some (Room.make ("uuid-" ++ toString (s.uuid_seed + 1)) "Living Room" "bedroom" 5 6 2.5
            (some Vec3.zero) (some Vec3.zero)) := by
  have hrec : ∀ p ∈ save_scene s, p.2.isRoomRec = false := by
    intro p hp
    unfold save_scene at hp
    obtain ⟨q, hq, rfl⟩ := List.mem_map.mp hp
    rw [Entity.to_dict_isRoomRec]
    exact (hvals q hq).2
  have hnd : ((save_scene s).map Prod.fst).Nodup := by
    unfold save_scene
    rw [List.map_map]
    exact hkeys
  have hchar := load_scene_char s (save_scene s) hrec hnd
  refine ⟨hchar.1, ?_, hchar.2.2⟩
  rw [hchar.2.1]
  unfold save_scene
  rw [List.map_map]
  exact List.map_congr_left (fun p hp => by
    show ((p.1, recordEntity p.2.to_dict) : String × Entity) = (p.1, canonEntity p.2)
    rw [entity_roundtrip p.2 (hvals p hp).1 (hvals p hp).2])

/-! C10: no Room ever reaches the id index (outside room-bearing loads) -/

theorem save_scene_noRoom (s : Scene) (h : mapNoRoom s.object_map) :
    ∀ p ∈ save_scene s, p.2.isRoomRec = false := by
  intro p hp
  unfold save_scene at hp
  obtain ⟨q, hq, rfl⟩ := List.mem_map.mp hp
  rw [Entity.to_dict_isRoomRec]
  exact h q hq

theorem save_state_history_mem (s : Scene) (d : String) (sn : Snapshot)
    (h : sn ∈ (save_state s d).history) : sn ∈ s.history ∨ sn = ⟨save_scene s, d⟩ := by
  unfold save_state at h
  dsimp only at h
  have h' : sn ∈ (if s.history_index < (s.history.length : ℤ) - 1
      then s.history.take (s.history_index + 1).toNat else s.history)
        ++ [(⟨save_scene s, d⟩ : Snapshot)] := by
    by_cases hc : ((if s.history_index < (s.history.length : ℤ) - 1
        then s.history.take (s.history_index + 1).toNat else s.history)
          ++ [(⟨save_scene s, d⟩ : Snapshot)]).length > max_history
    · rw [if_pos hc] at h
      exact List.drop_subset _ _ h
    · rw [if_neg hc] at h
      exact h
  rcases List.mem_append.mp h' with h1 | h1
  · left
    by_cases hc1 : s.history_index < (s.history.length : ℤ) - 1
    · rw [if_pos hc1] at h1
      exact List.take_subset _ _ h1
    · rw [if_neg hc1] at h1
      exact h1
  · right
    simpa using h1

theorem noRoomInv_save_state (s : Scene) (d : String) (h : noRoomInv s) :
    noRoomInv (save_state s d) := by
  refine ⟨?_, ?_⟩
  · show mapNoRoom (save_state s d).object_map
    rw [save_state_map]
    exact h.1
  · intro sn hsn
    rcases save_state_history_mem s d sn hsn with h1 | h1
    · exact h.2 sn h1
    · subst h1
      exact save_scene_noRoom s h.1

theorem mapNoRoom_assocSet (m : List (String × Entity)) (k : String) (v : Entity)
    (h : mapNoRoom m) (hv : v.isRoom = false) : mapNoRoom (assocSet m k v) := by
  induction m with
  | nil =>
    intro p hp
    unfold assocSet at hp
    rw [List.mem_singleton] at hp
    subst hp
    exact hv
  | cons q rest ih =>
    unfold assocSet
    by_cases hq : q.1 = k
    · rw [if_pos hq]
      intro p hp
      rcases List.mem_cons.mp hp with h1 | h1
      · subst h1; exact hv
      · exact h p (List.mem_cons_of_mem q h1)
    · rw [if_neg hq]
      intro p hp
      rcases List.mem_cons.mp hp with h1 | h1
      · rw [h1]; exact h q (List.mem_cons_self q rest)
      · exact ih (fun r hr => h r (List.mem_cons_of_mem q hr)) p h1

theorem assocErase_subset (m : List (String × Entity)) (k : String) :
    ∀ p ∈ assocErase m k, p ∈ m := by
  induction m with
  | nil => intro p hp; exact absurd hp (List.not_mem_nil p)
  | cons q rest ih =>
    intro p hp
    unfold assocErase at hp
    by_cases hq : q.1 = k
    · rw [if_pos hq] at hp
      exact List.mem_cons_of_mem q hp
    · rw [if_neg hq] at hp
      rcases List.mem_cons.mp hp with h1 | h1
      · subst h1; exact List.mem_cons_self p rest
      · exact List.mem_cons_of_mem q (ih p h1)

theorem assocLookup_mem (m : List (String × Entity)) (k : String) (e : Entity)
    (h : assocLookup m k = some e) : (k, e) ∈ m := by
  induction m with
  | nil => simp [assocLookup] at h
  | cons q rest ih =>
    unfold assocLookup at h
    by_cases hq : q.1 = k
    · rw [if_pos hq] at h
      simp only [Option.some_inj] at h
      have : q = (k, e) := by
        cases q
        simp_all
      rw [← this]
      exact List.mem_cons_self q rest
    · rw [if_neg hq] at h
      exact List.mem_cons_of_mem q (ih h)

theorem Entity.isRoom_mapBase (e : Entity) (g : BaseFields → BaseFields) :
    (e.mapBase g).isRoom = e.isRoom := by
  cases e <;> rfl

theorem Entity.isRoom_setPosition (e : Entity) (q : Vec3) :
    (e.setPosition q).isRoom = e.isRoom := by
  cases e <;> rfl

theorem Entity.isRoom_setRotation (e : Entity) (q : Vec3) :
    (e.setRotation q).isRoom = e.isRoom := by
  cases e <;> rfl

theorem Entity.isRoom_setSelectedFlag (e : Entity) (b : Bool) :
    (e.setSelectedFlag b).isRoom = e.isRoom := by
  cases e <;> rfl

theorem setTargetEntity_map (s : Scene) (t : Target) (e0 e' : Entity) :
    (s.setTargetEntity t e0 e').object_map
      = s.object_map.map (fun p => if p.1 = e0.idOf ∧ p.2 = e0 then (p.1, e') else p) := by
  unfold Scene.setTargetEntity
  cases t <;> cases e' <;> rfl

theorem setTargetEntity_history (s : Scene) (t : Target) (e0 e' : Entity) :
    (s.setTargetEntity t e0 e').history = s.history := by
  unfold Scene.setTargetEntity
  cases t <;> cases e' <;> rfl

theorem noRoomInv_setTarget (s : Scene) (t : Target) (e0 e' : Entity) (h : noRoomInv s)
    (he : e'.isRoom = false ∨ e0.isRoom = true) : noRoomInv (s.setTargetEntity t e0 e') := by
  refine ⟨?_, ?_⟩
  · show mapNoRoom (s.setTargetEntity t e0 e').object_map
    rw [setTargetEntity_map]
    intro p hp
    obtain ⟨q, hq, rfl⟩ := List.mem_map.mp hp
    by_cases hc : (q.1 = e0.idOf ∧ q.2 = e0)
    · rcases he with he | he
      · rw [if_pos hc]
        exact he
      · exact absurd (hc.2 ▸ h.1 q hq) (by rw [he]; simp)
    · rw [if_neg hc]
      exact h.1 q hq
  · show ∀ sn ∈ (s.setTargetEntity t e0 e').history, snapNoRoom sn
    rw [setTargetEntity_history]
    exact h.2

theorem targetEntity_nonroom (s : Scene) (t : Target) (e : Entity)
    (hnr : t ≠ Target.room) (he : s.targetEntity t = some e) : e.isRoom = false := by
  cases t with
  | room => exact absurd rfl hnr
  | door i =>
    unfold Scene.targetEntity at he
    dsimp only at he
    cases hget : s.doors.get? i <;> rw [hget] at he <;> simp at he
    subst he
    rfl
  | window i =>
    unfold Scene.targetEntity at he
    dsimp only at he
    cases hget : s.windows.get? i <;> rw [hget] at he <;> simp at he
    subst he
    rfl
  | furn i =>
    unfold Scene.targetEntity at he
    dsimp only at he
    cases hget : s.furniture.get? i <;> rw [hget] at he <;> simp at he
    subst he
    rfl

theorem setRoomValue_map_noRoom (s : Scene) (r0 r' : Room) (h : mapNoRoom s.object_map) :
    (s.setRoomValue r0 r').object_map = s.object_map := by
  show s.object_map.map _ = s.object_map
  have hid : ∀ p ∈ s.object_map,
      (if p.1 = r0.base.id ∧ p.2 = Entity.room r0 then (p.1, Entity.room r') else p) = id p := by
    intro p hp
    rw [if_neg]
    · rfl
    · rintro ⟨-, hc⟩
      have := h p hp
      rw [hc] at this
      simp [Entity.isRoom] at this
  rw [List.map_congr_left hid, List.map_id]

theorem noRoomInv_setRoomValue (s : Scene) (r0 r' : Room) (h : noRoomInv s) :
    noRoomInv (s.setRoomValue r0 r') := by
  refine ⟨?_, h.2⟩
  show mapNoRoom (s.setRoomValue r0 r').object_map
  rw [setRoomValue_map_noRoom s r0 r' h.1]
  exact h.1

theorem noRoomInv_set_room (s : Scene) (name : String) (w l hgt : ℚ) (rt : String)
    (h : noRoomInv s) : noRoomInv (set_room s name w l hgt rt) := by
  unfold set_room
  cases hsr : s.room <;> dsimp only
  · exact noRoomInv_save_state _ _ ⟨h.1, h.2⟩
  · have h1 := noRoomInv_save_state s ("Change Room to " ++ name) h
    exact noRoomInv_save_state _ _ ⟨h1.1, h1.2⟩

theorem noRoomInv_clear_scene (s : Scene) (h : noRoomInv s) : noRoomInv (clear_scene s) := by
  unfold clear_scene
  dsimp only
  exact noRoomInv_set_room _ _ _ _ _ _
    ⟨fun p hp => absurd hp (List.not_mem_nil p),
     (noRoomInv_save_state s "Clear Scene" h).2⟩

theorem noRoomInv_loadRecord (s : Scene) (k : String) (r : ObjectRecord)
    (h : noRoomInv s) (hr : r.isRoomRec = false) : noRoomInv (loadRecord s k r) := by
  cases r with
  | room rec => simp [ObjectRecord.isRoomRec] at hr
  | door rec => exact ⟨mapNoRoom_assocSet _ _ _ h.1 rfl, h.2⟩
  | window rec => exact ⟨mapNoRoom_assocSet _ _ _ h.1 rfl, h.2⟩
  | furn rec => exact ⟨mapNoRoom_assocSet _ _ _ h.1 rfl, h.2⟩

theorem noRoomInv_loadFold (rs : List (String × ObjectRecord)) : ∀ (s0 : Scene),
    noRoomInv s0 → (∀ p ∈ rs, p.2.isRoomRec = false) →
    noRoomInv (rs.foldl (fun s p => loadRecord s p.1 p.2) s0) := by
  induction rs with
  | nil => intro s0 h _; exact h
  | cons p ps ih =>
    intro s0 h hrs
    simp only [List.foldl_cons]
    exact ih (loadRecord s0 p.1 p.2)
      (noRoomInv_loadRecord s0 p.1 p.2 h (hrs p (List.mem_cons_self p ps)))
      (fun q hq => hrs q (List.mem_cons_of_mem p hq))

theorem noRoomInv_load_scene (s : Scene) (data : List (String × ObjectRecord))
    (h : noRoomInv s) (hdata : ∀ p ∈ data, p.2.isRoomRec = false) :
    noRoomInv (load_scene s data).2 := by
  unfold load_scene
  dsimp only
  have h1 := noRoomInv_clear_scene s h
  have h2 : noRoomInv { clear_scene s with room := none } := ⟨h1.1, h1.2⟩
  have h3 := noRoomInv_loadFold data { clear_scene s with room := none } h2 hdata
  by_cases hc : (data.foldl (fun s p => loadRecord s p.1 p.2)
      { clear_scene s with room := none }).room = none
  · rw [if_pos hc]
    exact noRoomInv_set_room _ _ _ _ _ _ h3
  · rw [if_neg hc]
    exact h3

theorem noRoomInv_add_object (s : Scene) (e : Entity) (h : noRoomInv s)
    (he : e.isRoom = false) : noRoomInv (add_object s e) := by
  unfold add_object
  dsimp only
  cases e with
  | room r => simp [Entity.isRoom] at he
  | door d => exact ⟨mapNoRoom_assocSet _ _ _ h.1 rfl, h.2⟩
  | window w => exact ⟨mapNoRoom_assocSet _ _ _ h.1 rfl, h.2⟩
  | furn f => exact ⟨mapNoRoom_assocSet _ _ _ h.1 rfl, h.2⟩

theorem noRoomInv_add_door (s : Scene) (dt : String) (w hgt : ℚ)
    (pos rot : Option Vec3) (th : ℚ) (h : noRoomInv s) :
    noRoomInv (add_door s dt w hgt pos rot th) := by
  unfold add_door
  dsimp only
  exact noRoomInv_add_object _ _ (noRoomInv_save_state s _ h) rfl

theorem noRoomInv_add_window (s : Scene) (wt : String) (w hgt : ℚ)
    (pos rot : Option Vec3) (h : noRoomInv s) :
    noRoomInv (add_window s wt w hgt pos rot) := by
  unfold add_window
  dsimp only
  exact noRoomInv_add_object _ _ (noRoomInv_save_state s _ h) rfl

theorem noRoomInv_add_furniture (s : Scene) (ft : String) (w d hgt : ℚ)
    (pos rot : Option Vec3) (cat : Option String) (h : noRoomInv s) :
    noRoomInv (add_furniture s ft w d hgt pos rot cat) := by
  unfold add_furniture
  dsimp only
  exact noRoomInv_add_object _ _ (noRoomInv_save_state s _ h) rfl

theorem noRoomInv_undo (s : Scene) (h : noRoomInv s) : noRoomInv (undo s).2 := by
  unfold undo
  split
  · exact h
  · dsimp only
    split
    · exact ⟨h.1, h.2⟩
    · rename_i prev hprev
      have hmem : prev ∈ s.history := List.get?_mem hprev
      have hdata : ∀ p ∈ prev.objects, p.2.isRoomRec = false := h.2 prev hmem
      have h1 : noRoomInv ({ s with history_index := s.history_index - 1 } : Scene) :=
        ⟨h.1, h.2⟩
      have h2 := noRoomInv_load_scene _ prev.objects h1 hdata
      split
      · exact h2
      · exact h2

theorem noRoomInv_redo (s : Scene) (h : noRoomInv s) : noRoomInv (redo s).2 := by
  unfold redo
  split
  · exact h
  · dsimp only
    split
    · exact ⟨h.1, h.2⟩
    · rename_i nxt hnxt
      have hmem : nxt ∈ s.history := List.get?_mem hnxt
      have h1 : noRoomInv ({ s with history_index := s.history_index + 1 } : Scene) :=
        ⟨h.1, h.2⟩
      exact noRoomInv_load_scene _ nxt.objects h1 (h.2 nxt hmem)

theorem noRoomInv_delete (s : Scene) (h : noRoomInv s) :
    noRoomInv (delete_selected_object s).2 := by
  unfold delete_selected_object
  split
  · exact h
  · rename_i t hsel
    split
    · exact h
    · split
      · exact h
      · rename_i hnr _ e he
        dsimp only
        have hs1 := noRoomInv_save_state s ("Delete " ++ e.nameOf) h
        have hs2 : noRoomInv (removeTargetFromList (save_state s ("Delete " ++ e.nameOf)) t) := by
          refine ⟨?_, ?_⟩
          · show mapNoRoom _
            rw [(removeTargetFromList_core _ t).1]
            exact hs1.1
          · intro sn hsn
            rw [(removeTargetFromList_core _ t).2.2.2.1] at hsn
            exact hs1.2 sn hsn
        split
        · refine ⟨?_, hs2.2⟩
          intro p hp
          exact hs2.1 p (assocErase_subset _ _ p hp)
        · exact hs2

theorem noRoomInv_move (s : Scene) (dx dy dz : ℚ) (h : noRoomInv s) :
    noRoomInv (move_selected_object s dx dy dz).2 := by
  unfold move_selected_object
  split
  · exact h
  · rename_i t hsel
    split
    · exact h
    · rename_i hnr
      split
      · exact h
      · rename_i e he
        dsimp only
        apply noRoomInv_save_state
        apply noRoomInv_setTarget _ _ _ _ h
        left
        rw [Entity.isRoom_setPosition]
        exact targetEntity_nonroom s t e hnr he

theorem noRoomInv_rotate (s : Scene) (dx dy dz : ℚ) (h : noRoomInv s) :
    noRoomInv (rotate_selected_object s dx dy dz).2 := by
  unfold rotate_selected_object
  split
  · exact h
  · rename_i t hsel
    split
    · exact h
    · rename_i hnr
      split
      · exact h
      · rename_i e he
        dsimp only
        apply noRoomInv_save_state
        apply noRoomInv_setTarget _ _ _ _ h
        left
        rw [Entity.isRoom_setRotation]
        exact targetEntity_nonroom s t e hnr he

theorem noRoomInv_set_selected (s : Scene) (t : Option Target) (h : noRoomInv s) :
    noRoomInv (set_selected_object s t) := by
  unfold set_selected_object
  dsimp only
  have flagCase : ∀ (s' : Scene) (t0 : Target) (e : Entity) (b : Bool), noRoomInv s' →
      noRoomInv (s'.setTargetEntity t0 e (e.setSelectedFlag b)) := by
    intro s' t0 e b h'
    apply noRoomInv_setTarget _ _ _ _ h'
    cases hr : e.isRoom with
    | false => left; rw [Entity.isRoom_setSelectedFlag]; exact hr
    | true => right; rfl
  have h1 : noRoomInv (match s.selected with
      | some t0 =>
        match s.targetEntity t0 with
        | some e => s.setTargetEntity t0 e (e.setSelectedFlag false)
        | none => s
      | none => s) := by
    split
    · split
      · exact flagCase s _ _ false h
      · exact h
    · exact h
  split
  · split
    · exact flagCase _ _ _ true ⟨h1.1, h1.2⟩
    · exact ⟨h1.1, h1.2⟩
  · exact ⟨h1.1, h1.2⟩

theorem noRoomInv_set_room_color (s : Scene) (c : String) (o : ℚ) (comp : Component)
    (h : noRoomInv s) : noRoomInv (set_room_color s c o comp) := by
  unfold set_room_color
  split
  · exact h
  · rename_i r hr
    dsimp only
    have hs1 := noRoomInv_save_state s ("Change " ++ comp.pyStr ++ " color") h
    split
    · exact noRoomInv_setRoomValue _ _ _ hs1
    · exact noRoomInv_setRoomValue _ _ _ hs1
    · exact noRoomInv_setRoomValue _ _ _ hs1
    · exact noRoomInv_setRoomValue _ _ _ hs1
    · exact noRoomInv_setRoomValue _ _ _ hs1
    · exact noRoomInv_setRoomValue _ _ _ hs1
    · exact noRoomInv_setRoomValue _ _ _ hs1
    · exact hs1

theorem noRoomInv_runOp (s : Scene) (op : Op) (hop : opRoomFree op) (h : noRoomInv s) :
    noRoomInv (runOp s op) := by
  cases op with
  | set_room name w l hgt rt => exact noRoomInv_set_room s name w l hgt rt h
  | add_door dt w hgt pos rot th => exact noRoomInv_add_door s dt w hgt pos rot th h
  | add_window wt w hgt pos rot => exact noRoomInv_add_window s wt w hgt pos rot h
  | add_furniture ft w d hgt pos rot cat => exact noRoomInv_add_furniture s ft w d hgt pos rot cat h
  | clear_scene => exact noRoomInv_clear_scene s h
  | load_scene data => exact noRoomInv_load_scene s data h hop
  | undo => exact noRoomInv_undo s h
  | redo => exact noRoomInv_redo s h
  | delete_selected => exact noRoomInv_delete s h
  | move_selected d => exact noRoomInv_move s d.x d.y d.z h
  | rotate_selected d => exact noRoomInv_rotate s d.x d.y d.z h
  | set_selected t => exact noRoomInv_set_selected s t h
  | set_room_color c o comp => exact noRoomInv_set_room_color s c o comp h

theorem noRoomInv_runOps (ops : List Op) : ∀ s : Scene,
    (∀ op ∈ ops, opRoomFree op) → noRoomInv s → noRoomInv (runOps s ops) := by
  induction ops with
  | nil => intro s _ h; exact h
  | cons op rest ih =>
    intro s hops h
    show noRoomInv (runOps (runOp s op) rest)
    exact ih (runOp s op) (fun q hq => hops q (List.mem_cons_of_mem op hq))
      (noRoomInv_runOp s op (hops op (List.mem_cons_self op rest)) h)

theorem noRoomInv_initScene : noRoomInv initScene := by
  refine ⟨?_, ?_⟩
  · intro p hp
    rw [show initScene.object_map = [] from rfl] at hp
    exact absurd hp (List.not_mem_nil p)
  · intro sn hsn
    rw [show initScene.history = [] from rfl] at hsn
    exact absurd hsn (List.not_mem_nil sn)

/-- Claim C10: along any call trace from a fresh manager whose `load_scene` payloads carry no Room record, no Room is ever entered into `object_map`: the `save_scene` output contains no Room record, `get_object_by_id` never returns a Room, and every stored history snapshot is Room-free. -/
theorem c10_statement (ops : List Op) (hops : ∀ op ∈ ops, opRoomFree op) :
    (∀ p ∈ save_scene (runOps initScene ops), p.2.isRoomRec = false) ∧
    (∀ (oid : String) (e : Entity),
        get_object_by_id (runOps initScene ops) oid = some e → e.isRoom = false) ∧
    (∀ sn ∈ (runOps initScene ops).history, ∀ p ∈ sn.objects, p.2.isRoomRec = false) := by
  have h := noRoomInv_runOps ops initScene hops noRoomInv_initScene
  refine ⟨save_scene_noRoom _ h.1, ?_, h.2⟩
  intro oid e he
  exact h.1 (oid, e) (assocLookup_mem _ _ _ he)

theorem c10_witness :
    (∀ op ∈ ([Op.add_door "Single Door" 0.9 2.0 none none 0.05,
               Op.set_room "Bedroom" 4 4 2.5 "bedroom"] : List Op), opRoomFree op) ∧
    ((∀ p ∈ save_scene (runOps initScene [Op.add_door "Single Door" 0.9 2.0 none none 0.05,
          Op.set_room "Bedroom" 4 4 2.5 "bedroom"]), p.2.isRoomRec = false) ∧
     (∀ (oid : String) (e : Entity),
        get_object_by_id (runOps initScene [Op.add_door "Single Door" 0.9 2.0 none none 0.05,
          Op.set_room "Bedroom" 4 4 2.5 "bedroom"]) oid = some e → e.isRoom = false) ∧
     (∀ sn ∈ (runOps initScene [Op.add_door "Single Door" 0.9 2.0 none none 0.05,
          Op.set_room "Bedroom" 4 4 2.5 "bedroom"]).history, ∀ p ∈ sn.objects,
          p.2.isRoomRec = false)) :=
  ⟨by decide, c10_statement [Op.add_door "Single Door" 0.9 2.0 none none 0.05,
      Op.set_room "Bedroom" 4 4 2.5 "bedroom"] (by decide)⟩

/-- Claim C1, refuted (code bug): on a fresh manager with two doors added, `undo` hits the `IndexError` modelled by the `none` first component (`load_scene` itself appends snapshots that move the history cursor to the end, so the final `history[history_index + 1]` read is out of range), `can_redo` is false afterwards, `redo` refuses to act, and the serialized scene after undo + redo is empty rather than the two-door scene: the undo/redo round trip cannot reproduce the state. -/
theorem c1_undo_indexerror :
    can_undo demoTwoDoors = true ∧
    (undo demoTwoDoors).1 = none ∧
    can_redo (undo demoTwoDoors).2 = false ∧
    redo (undo demoTwoDoors).2 = (some "", (undo demoTwoDoors).2) ∧
    (save_scene (redo (undo demoTwoDoors).2).2).map Prod.fst = [] ∧
    (save_scene demoTwoDoors).map Prod.fst = ["0", "1"] := by
  have hnc : ¬ can_redo (undo demoTwoDoors).2 = true := by decide
  have hredo : redo (undo demoTwoDoors).2 = (some "", (undo demoTwoDoors).2) := by
    unfold redo
    rw [if_pos hnc]
  refine ⟨by decide, by decide, by decide, hredo, ?_, by decide⟩
  rw [hredo]
  decide

/-- Claim C3, refuted (code bug): `load_scene` keeps the loaded `object_map` keys but `clear_scene` reset `last_id` to 0 and loading does not advance it, so the next `add_door` assigns the duplicate id "0": two distinct doors then share one id and the index holds a single entry — the loaded door's index entry was overwritten, so the 1:1 id correspondence fails. -/
theorem c3_id_collision :
    demoLoadThenAdd.doors.map (fun d => d.base.id) = ["0", "0"] ∧
    demoLoadThenAdd.doors.map (fun d => d.base.name) = ["Single Door 1", "Single Door 2"] ∧
    demoLoadThenAdd.object_map.map Prod.fst = ["0"] := by decide

/-- Claim C9, refuted (code bug): the window mesh-cache key omits thickness and segments, so two windows of equal type, width and height but different thickness — or two bay windows with different segment counts — share one cache key and would share a cached vertex buffer; door keys do include thickness and differ as claimed. -/
theorem c9_mesh_key_collision :
    windowMeshKey demoWindowA = windowMeshKey demoWindowB ∧
    demoWindowA.thickness ≠ demoWindowB.thickness ∧
    windowMeshKey demoBayA = windowMeshKey demoBayB ∧
    demoBayA.segments ≠ demoBayB.segments ∧
    doorMeshKey demoDoorA ≠ doorMeshKey demoDoorB ∧
    demoDoorA.door_type = demoDoorB.door_type ∧
    demoDoorA.width = demoDoorB.width ∧ demoDoorA.height = demoDoorB.height := by
  refine ⟨rfl, ?_, rfl, by decide, ?_, rfl, rfl, rfl⟩
  · show (0.1 : ℚ) ≠ max 0.05 0.2
    rw [max_eq_right (by norm_num : (0.05:ℚ) ≤ 0.2)]
    norm_num
  · intro h
    have h5 : demoDoorA.thickness = demoDoorB.thickness := congrArg (fun p => p.2.2.2.2) h
    rw [show demoDoorA.thickness = (0.05 : ℚ) from rfl,
        show demoDoorB.thickness = max 0.01 0.07 from rfl,
        max_eq_right (by norm_num : (0.01:ℚ) ≤ 0.07)] at h5
    norm_num at h5

theorem c2_room_counterexample :
    demoBedroomScene.room.map (fun r => r.base.name) = some "Bedroom" ∧
    (load_scene demoBedroomScene (save_scene demoBedroomScene)).2.room.map
      (fun r => r.base.name) = some "Living Room" := by decide

theorem c2_roundtrip_witness :
    ((demoSelScene.object_map.map Prod.fst).Nodup ∧
      (∀ p ∈ demoSelScene.object_map, entityInv p.2 ∧ p.2.isRoom = false)) ∧
    ((load_scene demoSelScene (save_scene demoSelScene)).1 = true ∧
     (load_scene demoSelScene (save_scene demoSelScene)).2.object_map
        = demoSelScene.object_map.map (fun p => (p.1, canonEntity p.2)) ∧
     (load_scene demoSelScene (save_scene demoSelScene)).2.room
        = some (Room.make ("uuid-" ++ toString (demoSelScene.uuid_seed + 1)) "Living Room"
            "bedroom" 5 6 2.5 (some Vec3.zero) (some Vec3.zero))) := by
  have hv : ∀ p ∈ demoSelScene.object_map, entityInv p.2 ∧ p.2.isRoom = false := by
    intro p hp
    rw [show demoSelScene.object_map = [("d1", Entity.door demoDoorA)] from rfl] at hp
    rw [List.mem_singleton] at hp
    subst hp
    refine ⟨?_, rfl⟩
    show DoorInv demoDoorA
    unfold DoorInv demoDoorA Door.make BaseFields.make
    refine ⟨le_max_left _ _, le_max_left _ _, by norm_num, le_refl 0, by norm_num, ?_, by simp⟩
    norm_num
  exact ⟨⟨by decide, hv⟩, c2_amended_statement demoSelScene (by decide) hv⟩

theorem c7_sign_counterexample :
    allHexDigits (lstripHash "+F0000") = false ∧
    hex_to_rgb (PyColor.str "+F0000") = some [15/255, 0, 0] ∧
    ([15/255, 0, 0] : List ℚ) ≠ [1, 1, 1] := by
  refine ⟨by decide, ?_, ?_⟩
  · rw [hex_to_rgb_six "+F0000" '+' 'F' '0' '0' '0' '0' 15 0 0 (by decide)
      (by decide) (by decide) (by decide)]
    norm_num
  · intro h
    rw [List.cons.injEq] at h
    have h1 := h.1
    norm_num at h1

theorem c8_counterexample :
    ghostScene.selected = some (Target.door 0) ∧
    (delete_selected_object ghostScene).1 = false ∧
    (delete_selected_object ghostScene).2.selected = some (Target.door 0) ∧
    (delete_selected_object ghostScene).2.doors.length = 0 ∧
    ghostScene.doors.length = 1 ∧
    (delete_selected_object ghostScene).2.history.length = 1 ∧
    ghostScene.history.length = 0 := by decide

theorem c6_witness :
    demoSelScene.room = some (Room.make "rid" "Demo Room" "bedroom" 5 6 2.5 none none) ∧
    ((((Room.make "rid" "Demo Room" "bedroom" 5 6 2.5 none none).south_wall_color = none ∧
       (Room.make "rid" "Demo Room" "bedroom" 5 6 2.5 none none).east_wall_color = none ∧
       (Room.make "rid" "Demo Room" "bedroom" 5 6 2.5 none none).west_wall_color = none) →
      ∃ r1, (set_room_color demoSelScene "#FF0000" 1 Component.north_wall).room = some r1 ∧
        r1.wall_color = hex_to_rgb_str "#FF0000" ∧
        r1.get_south_wall_color = hex_to_rgb_str "#FF0000" ∧
        r1.get_east_wall_color = hex_to_rgb_str "#FF0000" ∧
        r1.get_west_wall_color = hex_to_rgb_str "#FF0000" ∧
        r1.south_wall_color = none ∧ r1.east_wall_color = none ∧ r1.west_wall_color = none) ∧
     (¬ ((Room.make "rid" "Demo Room" "bedroom" 5 6 2.5 none none).south_wall_color = none ∧
         (Room.make "rid" "Demo Room" "bedroom" 5 6 2.5 none none).east_wall_color = none ∧
         (Room.make "rid" "Demo Room" "bedroom" 5 6 2.5 none none).west_wall_color = none) →
      ∃ r1, (set_room_color demoSelScene "#FF0000" 1 Component.north_wall).room = some r1 ∧
        r1.wall_color = (Room.make "rid" "Demo Room" "bedroom" 5 6 2.5 none none).wall_color) ∧
     (((Room.make "rid" "Demo Room" "bedroom" 5 6 2.5 none none).north_wall_color = none ∧
       (Room.make "rid" "Demo Room" "bedroom" 5 6 2.5 none none).south_wall_color = none ∧
       (Room.make "rid" "Demo Room" "bedroom" 5 6 2.5 none none).east_wall_color = none ∧
       (Room.make "rid" "Demo Room" "bedroom" 5 6 2.5 none none).west_wall_color = none) →
      ∃ r2, (set_room_color (set_room_color demoSelScene "#FF0000" 1 Component.north_wall)
          "#00FF00" 1 Component.south_wall).room = some r2 ∧
        r2.get_north_wall_color = hex_to_rgb_str "#FF0000" ∧
        r2.get_south_wall_color = hex_to_rgb_str "#00FF00" ∧
        r2.wall_color = hex_to_rgb_str "#FF0000" ∧
        (∀ (c3 : String) (comp : Component),
          comp = Component.north_wall ∨ comp = Component.south_wall ∨
          comp = Component.east_wall ∨ comp = Component.west_wall →
          ∃ r3, (set_room_color (set_room_color (set_room_color demoSelScene "#FF0000" 1
              Component.north_wall) "#00FF00" 1 Component.south_wall) c3 1 comp).room
                = some r3 ∧
            r3.wall_color = r2.wall_color))) :=
  ⟨rfl, c6_statement demoSelScene (Room.make "rid" "Demo Room" "bedroom" 5 6 2.5 none none)
      "#FF0000" "#00FF00" rfl⟩
